import Mathlib

/-!
Shallow embedding of the core of the Sentry-ai backend (grid decomposition,
feature-extraction pipeline, risk models, deterministic context generator),
translated from the Python sources:

  backend/utils/gee_satellite.py      (GEESatellite)
  backend/services/feature_extractor.py (FeatureExtractor)
  backend/models/risk_model.py        (RiskPredictionModel)
  backend/models/insurance_model.py   (InsuranceRiskModel)
  backend/services/data_service.py    (DataService)
  backend/services/model_trainer.py + backend/data/synthetic_data_generator.py
                                      (trained-model feature list)

Conventions: Python floats are modelled as rationals (ℚ); calls into external
services (Google Earth Engine samplers, the sha256 digest, numpy / the global
`random` stream, the trained regression model, the ephem library, datetime
parsing) are modelled as explicit function parameters, since they are external
capabilities from the point of view of the embedded code; `try/except` around a
sampler call is modelled by the sampler returning `Except`; Python `None` is
`FVal.null`; a Python dict used as a feature vector is an association list in
insertion order.
-/

namespace Sentry

/-- Value stored in a Python feature dict: a number, a string, `None`,
or the list of thumbnail-URL records (never inspected by the embedded code). -/
inductive FVal where
  | num (q : ℚ)
  | str (s : String)
  | null
  | urls (us : List String)
deriving DecidableEq, Repr, Inhabited

/-- Feature dict: association list in Python-dict insertion order. -/
abbrev FDict := List (String × FVal)

/-- Python `d.get(k)` / `k in d`: first binding of the key, `none` when the key
is absent (distinct from the key being present with value `None` = `FVal.null`). -/
def dictGet : FDict → String → Option FVal
  | [], _ => none
  | (k, v) :: rest, key => if k = key then some v else dictGet rest key

/-- Python `d.get(k, default)`: the default is used only when the key is absent. -/
def dictGetD (d : FDict) (key : String) (dflt : FVal) : FVal :=
  match dictGet d key with
  | some v => v
  | none => dflt

/-- Python `d[k] = v`: replace the first binding in place, else append. -/
def dictSet : FDict → String → FVal → FDict
  | [], key, v => [(key, v)]
  | (k, w) :: rest, key, v =>
      if k = key then (k, v) :: rest else (k, w) :: dictSet rest key v

/-- Python `d.update(e)` for the dict-literal arguments used in the pipeline. -/
def dictUpdate (d : FDict) : FDict → FDict
  | [] => d
  | (k, v) :: rest => dictUpdate (dictSet d k v) rest

/-- Numeric value of an `FVal`; the embedded code only applies it where the
source would have a numeric value (a non-numeric value would be a Python
`TypeError` at the corresponding comparison, a path no claim exercises). -/
def fnum : FVal → ℚ
  | .num q => q
  | _ => 0

/-- Python `d.get(k, dflt)` read as a number. -/
def dictGetNum (d : FDict) (key : String) (dflt : ℚ) : ℚ :=
  fnum (dictGetD d key (.num dflt))

/-- Python `d[k]` read as a number; in the pipeline the key is always present
(set by an earlier layer), so the `0` branch of `fnum` is never taken there
(the source would raise `KeyError` on an absent key). -/
def dictIdxNum (d : FDict) (key : String) : ℚ :=
  fnum (dictGetD d key (.num 0))

/-- Python `d[k]` read as a string (used for `features['season']`). -/
def dictIdxStr (d : FDict) (key : String) : String :=
  match dictGet d key with
  | some (.str s) => s
  | _ => ""

/-- Truthiness of a sampled value: Python `if ndvi_value:` is false both for
`None` and for `0`/`0.0`. -/
def pyTruthy : Option ℚ → Bool
  | none => false
  | some q => decide (q ≠ 0)

/-- Python `round()` with no digits: round half to even, returning an integer. -/
def roundHalfEven (q : ℚ) : ℤ :=
  if q - ⌊q⌋ < 1 / 2 then ⌊q⌋
  else if 1 / 2 < q - ⌊q⌋ then ⌊q⌋ + 1
  else if ⌊q⌋ % 2 = 0 then ⌊q⌋ else ⌊q⌋ + 1

/-- Python `round(x, n)`: round half to even at the n-th decimal place. -/
def roundTo (n : ℕ) (q : ℚ) : ℚ :=
  (roundHalfEven (q * 10 ^ n) : ℚ) / 10 ^ n

def round1 (q : ℚ) : ℚ := roundTo 1 q

def round2 (q : ℚ) : ℚ := roundTo 2 q

def round3 (q : ℚ) : ℚ := roundTo 3 q

/-- Python `int(x)` on a float: truncation toward zero. -/
def pyInt (q : ℚ) : ℤ :=
  if 0 ≤ q then ⌊q⌋ else ⌈q⌉

/-- `np.clip(x, lo, hi)`. -/
def qclip (x lo hi : ℚ) : ℚ := max lo (min x hi)

/-- Minimum of a nonempty list of rationals (Python `min(...)`; the source
raises on an empty sequence, which no claim exercises). -/
def qListMin : List ℚ → ℚ
  | [] => 0
  | x :: xs => xs.foldl min x

/-- Maximum of a nonempty list of rationals (Python `max(...)`). -/
def qListMax : List ℚ → ℚ
  | [] => 0
  | x :: xs => xs.foldl max x

/-! ## Geometry kernel and grid builder (backend/utils/gee_satellite.py) -/

/-- A latitude/longitude pair in degrees, as in the `{lat, lng}` dicts. -/
structure GeoPoint where
  lat : ℚ
  lng : ℚ
deriving DecidableEq, Repr, Inhabited

/-- South-west / north-east bounds of a grid cell. -/
structure CellBounds where
  southWest : GeoPoint
  northEast : GeoPoint
deriving DecidableEq, Repr, Inhabited

/-- A grid cell as produced by `GEESatellite.create_grid_cells`; the
`features` dict starts empty (the Python dict has no `features` key until a
pipeline layer assigns one). -/
structure GridCell where
  id : String
  center : GeoPoint
  bounds : CellBounds
  features : FDict
deriving DecidableEq, Repr, Inhabited

/-- Cyclic edge list of a polygon: the pairs `(polygon[i-1 mod n], polygon[i mod n])`
traversed by the `for i in range(1, n + 1)` loop of `_point_in_polygon`
(equivalently by the `(polygon[i], polygon[(i+1) % n])` loop of
`_distance_to_polygon_edge`). -/
def polyEdges (poly : List GeoPoint) : List (GeoPoint × GeoPoint) :=
  match poly with
  | [] => []
  | p :: ps => poly.zip (ps ++ [p])

/-- One iteration body of `GEESatellite._point_in_polygon`: whether the edge
toggles the `inside` parity.  The source computes `x_intersect` only when
`p1_lng != p2_lng`; under the outer guard `min < lng <= max` the two edge
longitudes always differ, so the final `false` branch (which in Python would
read a stale `x_intersect`) is unreachable. -/
def edgeToggle (lat lng : ℚ) (e : GeoPoint × GeoPoint) : Bool :=
  if min e.1.lng e.2.lng < lng ∧ lng ≤ max e.1.lng e.2.lng then
    if lat ≤ max e.1.lat e.2.lat then
      if e.1.lat = e.2.lat then true
      else if e.1.lng ≠ e.2.lng then
        decide (lat ≤ (lng - e.1.lng) * (e.2.lat - e.1.lat) / (e.2.lng - e.1.lng) + e.1.lat)
      else false
    else false
  else false

/-- `GEESatellite._point_in_polygon`: ray-casting parity over the cyclic edges. -/
def point_in_polygon (lat lng : ℚ) (poly : List GeoPoint) : Bool :=
  (polyEdges poly).foldl (fun b e => xor b (edgeToggle lat lng e)) false

/-- The `lat = min_lat; while lat < max_lat: ...; lat += lat_step` loop of
`create_grid_cells`: the sequence of loop-variable values.  The `0 < step`
part of the guard makes the recursion well founded; the Python loop would not
terminate for a non-positive step, a case no caller reaches. -/
def gridAxis (x mx step : ℚ) : List ℚ :=
  if h : x < mx ∧ 0 < step then
    x :: gridAxis (x + step) mx step
  else []
termination_by (⌈(mx - x) / step⌉).toNat
decreasing_by
  have h1 : 0 < step := h.2
  have key : ⌈(mx - (x + step)) / step⌉ = ⌈(mx - x) / step⌉ - 1 := by
    have hdiv : (mx - (x + step)) / step = (mx - x) / step - 1 := by
      field_simp
      ring
    rw [hdiv, Int.ceil_sub_one]
  have pos : 0 < ⌈(mx - x) / step⌉ := by
    apply Int.ceil_pos.mpr
    apply div_pos (by linarith [h.1]) h1
  omega

/-- `GEESatellite.create_grid_cells(polygon, cell_size_km)`.  The only
transcendental step, `math.cos(math.radians(mean_lat))`, is abstracted as the
capability `cosDeg` (cosine of an angle given in degrees); everything else is
the source's arithmetic.  Cells keep only SW corners until the final build so
that ids are assigned, as in the source, in generation order over the kept
cells only. -/
def create_grid_cells (cosDeg : ℚ → ℚ) (polygon : List GeoPoint)
    (cell_size_km : ℚ) : List GridCell :=
  let lats := polygon.map GeoPoint.lat
  let lngs := polygon.map GeoPoint.lng
  let min_lat := qListMin lats
  let max_lat := qListMax lats
  let min_lng := qListMin lngs
  let max_lng := qListMax lngs
  let lat_step := cell_size_km / 111
  let lng_step := cell_size_km / (111 * cosDeg ((min_lat + max_lat) / 2))
  let corners :=
    (gridAxis min_lat max_lat lat_step).flatMap
      (fun la => (gridAxis min_lng max_lng lng_step).map (fun ln => (la, ln)))
  let kept := corners.filter
    (fun c => point_in_polygon (c.1 + lat_step / 2) (c.2 + lng_step / 2) polygon)
  kept.enum.map (fun ic =>
    { id := "cell-" ++ toString ic.1
      center := ⟨ic.2.1 + lat_step / 2, ic.2.2 + lng_step / 2⟩
      bounds := ⟨⟨ic.2.1, ic.2.2⟩, ⟨ic.2.1 + lat_step, ic.2.2 + lng_step⟩⟩
      features := [] })

/-! ## Satellite extractor of GEESatellite (gee_satellite.py, extract_features_for_cells) -/

/-- Per-cell body of `GEESatellite.extract_features_for_cells` once at least one
image exists.  `imageCount` is the collection size reported by Earth Engine,
`imageUrls` the thumbnail records (shared across cells, never inspected), and
`sampler` the NDVI sampling round trip: `Except.error` models the `except`
branch, `Except.ok none` a `getInfo()` that returned `None`. -/
def geeSatCell (imageCount : ℕ) (imageUrls : List String)
    (sampler : GridCell → Except Unit (Option ℚ)) (cell : GridCell) : GridCell :=
  let base : FDict := [("image_count", .num imageCount), ("image_urls", .urls imageUrls)]
  match sampler cell with
  | .error _ => { cell with features := dictSet base "ndvi" .null }
  | .ok r =>
      let nv : FVal := if pyTruthy r then .num (round3 (r.getD 0)) else .null
      { cell with features := dictSet base "ndvi" nv }

/-- `GEESatellite.extract_features_for_cells` (with the default
`include_features`, which contains `'ndvi'`).  When zero cloud-free images are
found every cell gets the literal dict `{'ndvi': None, 'image_count': 0}`. -/
def gee_extract_features_for_cells (imageCount : ℕ) (imageUrls : List String)
    (sampler : GridCell → Except Unit (Option ℚ)) (cells : List GridCell) :
    List GridCell :=
  if imageCount = 0 then
    cells.map (fun cell => { cell with features := [("ndvi", .null), ("image_count", .num 0)] })
  else
    cells.map (geeSatCell imageCount imageUrls sampler)

/-! ## FeatureExtractor pipeline (feature_extractor.py) -/

/-- The fixed vegetation encoding table `['sparse', 'scrub', 'grassland', 'forest']`. -/
def vegTypes : List String := ["sparse", "scrub", "grassland", "forest"]

/-- Per-cell body of `FeatureExtractor._extract_satellite_features` once at
least one image exists: sample NDVI (truthiness turns both a failed sample and
an exact 0 into the 0.5 default), bin into a vegetation type, encode it; an
exception yields the documented defaults. -/
def feSatCell (sampler : GridCell → Except Unit (Option ℚ)) (cell : GridCell) :
    GridCell :=
  match sampler cell with
  | .error _ =>
      { cell with features :=
          [("ndvi", .num (1 / 2)), ("vegetation_type", .str "grassland"),
           ("vegetation_type_encoded", .num 2)] }
  | .ok r =>
      let v : ℚ := if pyTruthy r then round3 (r.getD 0) else 1 / 2
      let vt : String :=
        if v < 1 / 5 then "sparse"
        else if v < 2 / 5 then "scrub"
        else if v < 3 / 5 then "grassland"
        else "forest"
      { cell with features :=
          [("ndvi", .num v), ("vegetation_type", .str vt),
           ("vegetation_type_encoded", .num (vegTypes.indexOf vt : ℕ))] }

/-- `FeatureExtractor._extract_satellite_features`.  With zero images every
cell's features are reset to the literal dict
`{'ndvi': 0.5, 'vegetation_type': 'grassland'}` (note: no
`vegetation_type_encoded` and no `image_count` key in this branch). -/
def fe_extract_satellite_features (imageCount : ℕ)
    (sampler : GridCell → Except Unit (Option ℚ)) (cells : List GridCell) :
    List GridCell :=
  if imageCount = 0 then
    cells.map (fun cell =>
      { cell with features := [("ndvi", .num (1 / 2)), ("vegetation_type", .str "grassland")] })
  else
    cells.map (feSatCell sampler)

/-- `FeatureExtractor._point_to_segment_distance`: deliberately approximated in
the source as the minimum of the two endpoint distances.  `hav` abstracts
`_haversine_distance` (transcendental trigonometry over floats). -/
def point_to_segment_distance (hav : ℚ → ℚ → ℚ → ℚ → ℚ)
    (px py x1 y1 x2 y2 : ℚ) : ℚ :=
  min (hav px py x1 y1) (hav px py x2 y2)

/-- Placeholder standing for Python `float('inf')`, the initial accumulator of
`_distance_to_polygon_edge`; it survives only for an empty polygon, which no
caller produces. -/
def infPlaceholder : ℚ := 10 ^ 18

/-- `FeatureExtractor._distance_to_polygon_edge`: minimum over the cyclic edges
of the approximate point-to-segment distance. -/
def distance_to_polygon_edge (hav : ℚ → ℚ → ℚ → ℚ → ℚ) (lat lng : ℚ)
    (poly : List GeoPoint) : ℚ :=
  ((polyEdges poly).map (fun e =>
      point_to_segment_distance hav lat lng e.1.lat e.1.lng e.2.lat e.2.lng)).foldl
    min infPlaceholder

/-- Per-cell body of `FeatureExtractor._calculate_proximity_features`.  The
water/road/settlement estimators are fresh `np.random.uniform` draws per call
in the source; they are abstracted as oracles indexed by the cell's position in
the batch. -/
def feProxCell (hav : ℚ → ℚ → ℚ → ℚ → ℚ) (estWater estRoad estSettlement : ℕ → ℚ)
    (boundary : List GeoPoint) (i : ℕ) (cell : GridCell) : GridCell :=
  let db := distance_to_polygon_edge hav cell.center.lat cell.center.lng boundary
  let upd : FDict :=
    [("dist_to_boundary", .num (round1 db)),
     ("dist_to_water", .num (round1 (estWater i))),
     ("dist_to_road", .num (round1 (estRoad i))),
     ("dist_to_settlement", .num (round1 (estSettlement i)))]
  { cell with features := dictUpdate cell.features upd }

/-- `FeatureExtractor._calculate_proximity_features`: user polygon is the
boundary when no park boundary is supplied. -/
def fe_calculate_proximity_features (hav : ℚ → ℚ → ℚ → ℚ → ℚ)
    (estWater estRoad estSettlement : ℕ → ℚ) (polygon : List GeoPoint)
    (park_boundary : Option (List GeoPoint)) (cells : List GridCell) :
    List GridCell :=
  let boundary := park_boundary.getD polygon
  cells.enum.map (fun ic =>
    feProxCell hav estWater estRoad estSettlement boundary ic.1 ic.2)

/-- The season table of `FeatureExtractor._add_temporal_features`: months
12,1,2,3 dry; 4,5 wet (long rains); 6..10 dry; 11 wet (short rains). -/
def seasonOfMonth (month : ℕ) : String × ℚ :=
  if month = 12 ∨ month = 1 ∨ month = 2 ∨ month = 3 then ("dry", 0)
  else if month = 4 ∨ month = 5 then ("wet", 1)
  else if month = 6 ∨ month = 7 ∨ month = 8 ∨ month = 9 ∨ month = 10 then ("dry", 0)
  else ("wet", 1)

/-- `FeatureExtractor._add_temporal_features`.  The datetime parsing and the
midpoint of the date range, the ephem lunar phase (0..100), and the weekday
(0=Monday..6=Sunday) are library/capability results, passed in as
`middleMonth`, `moonPhase` and `weekday`; the season table and the
`moon.phase / 100` rounding are the source's own arithmetic. -/
def fe_add_temporal_features (moonPhase : ℚ) (middleMonth weekday : ℕ)
    (cells : List GridCell) : List GridCell :=
  let moonIllum := roundTo 2 (moonPhase / 100)
  let se := seasonOfMonth middleMonth
  let upd : FDict :=
    [("moon_illumination", .num moonIllum), ("season", .str se.1),
     ("season_encoded", .num se.2), ("day_of_week", .num weekday)]
  cells.map (fun cell => { cell with features := dictUpdate cell.features upd })

/-- `FeatureExtractor._calculate_ruggedness`: slope scaled from [0,60] degrees
to [0,10], clipped. -/
def calculate_ruggedness (slope : ℚ) : ℚ :=
  qclip (slope / 60 * 10) 0 10

/-- Per-cell body of `FeatureExtractor._extract_topographical_features`: the
elevation and slope samples share one `try`, so a failure of either yields the
default triple; a sampled `0` is replaced by the default through truthiness. -/
def feTopoCell (elevSampler slopeSampler : GridCell → Except Unit (Option ℚ))
    (cell : GridCell) : GridCell :=
  match elevSampler cell, slopeSampler cell with
  | .ok e, .ok s =>
      let elevation : ℚ := if pyTruthy e then e.getD 0 else 1000
      let slope : ℚ := if pyTruthy s then s.getD 0 else 10
      let ruggedness := calculate_ruggedness slope
      let upd : FDict :=
        [("elevation", .num (round1 elevation)), ("slope", .num (round1 slope)),
         ("terrain_ruggedness", .num (round1 ruggedness))]
      { cell with features := dictUpdate cell.features upd }
  | _, _ =>
      let upd : FDict :=
        [("elevation", .num 1000), ("slope", .num 10), ("terrain_ruggedness", .num 5)]
      { cell with features := dictUpdate cell.features upd }

/-- `FeatureExtractor._extract_topographical_features`. -/
def fe_extract_topographical_features
    (elevSampler slopeSampler : GridCell → Except Unit (Option ℚ))
    (cells : List GridCell) : List GridCell :=
  cells.map (feTopoCell elevSampler slopeSampler)

/-- Per-cell body of `FeatureExtractor._add_species_features`; `nowMonth` is
`datetime.now().month`. -/
def feSpeciesCell (nowMonth : ℕ) (cell : GridCell) : GridCell :=
  let lat := cell.center.lat
  let lng := cell.center.lng
  let is_migration_route : ℚ :=
    if -5 / 2 < lat ∧ lat < -3 / 2 ∧ 37 < lng ∧ lng < 38 then 1 else 0
  let breeding_season : ℚ :=
    if nowMonth = 3 ∨ nowMonth = 4 ∨ nowMonth = 5 ∨ nowMonth = 11 ∨ nowMonth = 12
    then 1 else 0
  let dist_to_water := dictGetNum cell.features "dist_to_water" 5000
  let wp : String × ℚ :=
    if dist_to_water < 2000 then ("regular", 0)
    else if dist_to_water < 5000 then ("seasonal", 1)
    else ("rare", 2)
  let upd : FDict :=
    [("elephant_migration_route", .num is_migration_route),
     ("breeding_season", .num breeding_season),
     ("watering_pattern", .str wp.1),
     ("watering_pattern_encoded", .num wp.2)]
  { cell with features := dictUpdate cell.features upd }

/-- `FeatureExtractor._add_species_features`. -/
def fe_add_species_features (nowMonth : ℕ) (cells : List GridCell) :
    List GridCell :=
  cells.map (feSpeciesCell nowMonth)

/-- Per-cell body of `FeatureExtractor._calculate_derived_features` (pure
feature engineering over keys set by the earlier layers). -/
def feDerivedCell (cell : GridCell) : GridCell :=
  let f := cell.features
  let upd : FDict :=
      [("boundary_risk", .num (1 / (dictIdxNum f "dist_to_boundary" + 100))),
       ("water_attraction", .num (1 / (dictIdxNum f "dist_to_water" + 50))),
       ("access_ease", .num (1 / (dictIdxNum f "dist_to_road" + 200))),
       ("isolation_score",
        .num ((dictIdxNum f "dist_to_settlement" + dictIdxNum f "dist_to_road") / 2000)),
       ("dense_vegetation", .num (if 1 / 2 < dictIdxNum f "ndvi" then 1 else 0)),
       ("dry_season", .num (if dictIdxStr f "season" = "dry" then 1 else 0)),
       ("is_weekend",
        .num (if dictIdxNum f "day_of_week" = 5 ∨ dictIdxNum f "day_of_week" = 6 then 1 else 0)),
       ("incidents_5km_radius", .num 0),
       ("days_since_last_incident", .num 180),
       ("seasonal_incident_rate", .num (1 / 20)),
       ("incident_density", .num 0)]
  { cell with features := dictUpdate f upd }

/-- `FeatureExtractor._calculate_derived_features`. -/
def fe_calculate_derived_features (cells : List GridCell) : List GridCell :=
  cells.map feDerivedCell

/-- `FeatureExtractor.extract_features_for_cells`: the six layers in their
documented order, each parameterized by its external capabilities. -/
def fe_extract_features_for_cells (imageCount : ℕ)
    (ndviSampler : GridCell → Except Unit (Option ℚ))
    (hav : ℚ → ℚ → ℚ → ℚ → ℚ) (estWater estRoad estSettlement : ℕ → ℚ)
    (moonPhase : ℚ) (middleMonth weekday : ℕ)
    (elevSampler slopeSampler : GridCell → Except Unit (Option ℚ))
    (nowMonth : ℕ) (polygon : List GeoPoint)
    (park_boundary : Option (List GeoPoint)) (cells : List GridCell) :
    List GridCell :=
  fe_calculate_derived_features
    (fe_add_species_features nowMonth
      (fe_extract_topographical_features elevSampler slopeSampler
        (fe_add_temporal_features moonPhase middleMonth weekday
          (fe_calculate_proximity_features hav estWater estRoad estSettlement
            polygon park_boundary
            (fe_extract_satellite_features imageCount ndviSampler cells)))))

/-- `FeatureExtractor.format_for_model_input` result record. -/
structure ModelInput where
  cell_id : String
  center : GeoPoint
  features : FDict
deriving DecidableEq, Repr, Inhabited

/-- Per-cell body of `FeatureExtractor.format_for_model_input`: the fixed
26-key schema, each value read with `features.get(key, default)`. -/
def formatCell (cell : GridCell) : ModelInput :=
  let f := cell.features
  { cell_id := cell.id
    center := cell.center
    features :=
      [("ndvi", dictGetD f "ndvi" (.num (1 / 2))),
       ("vegetation_type_encoded", dictGetD f "vegetation_type_encoded" (.num 2)),
       ("dist_to_boundary", dictGetD f "dist_to_boundary" (.num 10000)),
       ("dist_to_water", dictGetD f "dist_to_water" (.num 5000)),
       ("dist_to_road", dictGetD f "dist_to_road" (.num 10000)),
       ("dist_to_settlement", dictGetD f "dist_to_settlement" (.num 30000)),
       ("incidents_5km_radius", dictGetD f "incidents_5km_radius" (.num 0)),
       ("days_since_last_incident", dictGetD f "days_since_last_incident" (.num 180)),
       ("seasonal_incident_rate", dictGetD f "seasonal_incident_rate" (.num (1 / 20))),
       ("moon_illumination", dictGetD f "moon_illumination" (.num (1 / 2))),
       ("season_encoded", dictGetD f "season_encoded" (.num 0)),
       ("day_of_week", dictGetD f "day_of_week" (.num 3)),
       ("elevation", dictGetD f "elevation" (.num 1000)),
       ("slope", dictGetD f "slope" (.num 10)),
       ("terrain_ruggedness", dictGetD f "terrain_ruggedness" (.num 5)),
       ("elephant_migration_route", dictGetD f "elephant_migration_route" (.num 0)),
       ("breeding_season", dictGetD f "breeding_season" (.num 0)),
       ("watering_pattern_encoded", dictGetD f "watering_pattern_encoded" (.num 1)),
       ("boundary_risk", dictGetD f "boundary_risk" (.num 0)),
       ("water_attraction", dictGetD f "water_attraction" (.num 0)),
       ("access_ease", dictGetD f "access_ease" (.num 0)),
       ("isolation_score", dictGetD f "isolation_score" (.num 0)),
       ("dense_vegetation", dictGetD f "dense_vegetation" (.num 0)),
       ("dry_season", dictGetD f "dry_season" (.num 0)),
       ("is_weekend", dictGetD f "is_weekend" (.num 0)),
       ("incident_density", dictGetD f "incident_density" (.num 0))] }

/-- `FeatureExtractor.format_for_model_input`. -/
def format_for_model_input (cells : List GridCell) : List ModelInput :=
  cells.map formatCell

/-- The 26 feature names emitted by `format_for_model_input` — the schema the
repository's own test suite (`test_feature_extractor.py`,
`test_format_for_model_input`) asserts as "all required model features". -/
def formatFeatureKeys : List String :=
  ["ndvi", "vegetation_type_encoded",
   "dist_to_boundary", "dist_to_water", "dist_to_road", "dist_to_settlement",
   "incidents_5km_radius", "days_since_last_incident", "seasonal_incident_rate",
   "moon_illumination", "season_encoded", "day_of_week",
   "elevation", "slope", "terrain_ruggedness",
   "elephant_migration_route", "breeding_season", "watering_pattern_encoded",
   "boundary_risk", "water_attraction", "access_ease", "isolation_score",
   "dense_vegetation", "dry_season", "is_weekend", "incident_density"]

/-- The ordered feature-name list of the trained agricultural model, as built
by `ModelTrainer.prepare_features` (model_trainer.py): the numeric columns of
the synthetic training CSV (`synthetic_data_generator.py`, dict-insertion
order: ndvi, soil_moisture, dist_to_water, pest_reports_5km,
days_since_last_report, humidity, temperature, elevation, slope), followed by
the three label-encoded categorical columns, followed by the five derived
columns, with `cell_id, lat, lng, risk_score, crop_type, pest_pressure,
crop_stage` excluded. -/
def modelTrainerFeatureNames : List String :=
  ["ndvi", "soil_moisture", "dist_to_water", "pest_reports_5km",
   "days_since_last_report", "humidity", "temperature", "elevation", "slope",
   "crop_type_encoded", "pest_pressure_encoded", "crop_stage_encoded",
   "fungal_risk_index", "water_stress_index", "pest_habitat_suitability",
   "crop_health_score", "pest_pressure_history"]

/-! ## Agricultural risk model (backend/models/risk_model.py) -/

/-- Python `value.replace('.', '', 1)`: drop the first dot. -/
def dropFirstDot : List Char → List Char
  | [] => []
  | c :: cs => if c = '.' then cs else c :: dropFirstDot cs

/-- Python `s.replace('.', '', 1).isdigit()`: the string, with its first dot
removed, is nonempty and all digits. -/
def pyNumericStr (s : String) : Bool :=
  let cs := dropFirstDot s.toList
  !cs.isEmpty && cs.all Char.isDigit

/-- The missing-value test of `predict_batch`:
`value is None or (isinstance(value, str) and not value.replace('.', '', 1).isdigit())`,
applied to `features.get(feature)` — so an absent key (`none`) and a present
`None` are both missing. -/
def agriMissing : Option FVal → Bool
  | none => true
  | some .null => true
  | some (.str s) => !pyNumericStr s
  | some _ => false

/-- Is `sub` a contiguous substring of `s` (Python `sub in s`)? -/
def strContainsSub (s sub : String) : Bool :=
  decide (sub.toList <:+: s.toList)

/-- The per-feature default of `predict_batch` ("Defaults for agricultural
features"), keyed by substring/name tests in the source's order. -/
def agriDefault (feature : String) : FVal :=
  if strContainsSub feature "encoded" then .num 0
  else if strContainsSub feature "dist_" then .num 5000
  else if feature = "ndvi" then .num (3 / 5)
  else if feature = "humidity" then .num 60
  else if feature = "temperature" then .num 25
  else if feature = "soil_moisture" then .num (1 / 2)
  else .num 0

/-- One entry of `clean_features` in `predict_batch`. -/
def cleanFeature (features : FDict) (feature : String) : FVal :=
  let value := dictGet features feature
  if agriMissing value then agriDefault feature else value.getD .null

/-- The cleaned feature row of one cell, already in `self.feature_names`
order (the source's later `df[self.feature_names]` reorder is the identity on
a row built in that order). -/
def cleanRow (featureNames : List String) (features : FDict) : FDict :=
  featureNames.map (fun f => (f, cleanFeature features f))

/-- `missing_count` of one cell in `predict_batch`. -/
def missingCount (featureNames : List String) (features : FDict) : ℕ :=
  featureNames.countP (fun f => agriMissing (dictGet features f))

/-- `RiskPredictionModel._categorize_risk`. -/
def categorize_risk (score : ℚ) : String :=
  if 80 ≤ score then "critical"
  else if 60 ≤ score then "high"
  else if 40 ≤ score then "medium"
  else "low"

/-- `RiskPredictionModel._calculate_confidence`: feature completeness (no
nulls survive cleaning, but the computation is kept) times a score-extremity
penalty, rounded to 3 decimals. -/
def calculate_confidence (risk_score : ℚ) (row : FDict) : ℚ :=
  let missing : ℚ := (row.countP (fun kv => kv.2 = FVal.null) : ℕ)
  let completeness : ℚ := 1 - missing / (row.length : ℚ)
  let score_confidence : ℚ := 1 - |risk_score - 50| / 50 * (3 / 10)
  round3 (completeness * score_confidence)

/-- One explanation entry of `_generate_risk_factors`. -/
structure RiskFactor where
  factor : String
  contribution : ℤ
  description : String
deriving DecidableEq, Repr, Inhabited

/-- The rule-evaluation stage of `RiskPredictionModel._generate_risk_factors`:
the `factors` list before normalization.  Each `random.randint(a, b)` call of
the source is a draw from the process-global stream, abstracted as the oracle
`randint` indexed by the call's position within this invocation (the claims
only constrain each draw's range, which does not depend on the stream
position).  `threat_type` is accepted and unused by the source, and is taken
only by the normalization wrapper below. -/
def gatherRiskFactors (randint : ℕ → ℤ → ℤ → ℤ) (features : FDict)
    (risk_score : ℤ) : List RiskFactor :=
  let humidity := dictGetNum features "humidity" 50
  let temp := dictGetNum features "temperature" 25
  let f1 : List RiskFactor × ℕ :=
    if 80 < humidity ∧ 20 < temp then
      ([⟨"High Humidity & Warmth", randint 0 25 35, "Ideal conditions for fungal pathogens"⟩], 1)
    else if humidity < 30 then
      ([⟨"Low Humidity", randint 0 15 25, "Water stress increases pest susceptibility"⟩], 1)
    else ([], 0)
  let soil_moisture := dictGetNum features "soil_moisture" (1 / 2)
  let f2 : List RiskFactor × ℕ :=
    if 4 / 5 < soil_moisture then
      ([⟨"Waterlogging", randint f1.2 20 30, "Root rot risk and anaerobic conditions"⟩], f1.2 + 1)
    else ([], f1.2)
  let pest_pressure := dictGetNum features "pest_pressure_history" 0
  let f3 : List RiskFactor × ℕ :=
    if 2 < pest_pressure then
      ([⟨"High Pest Pressure", randint f2.2 20 30, "Recent pest outbreaks in vicinity"⟩], f2.2 + 1)
    else ([], f2.2)
  let ndvi := dictGetNum features "ndvi" (3 / 5)
  let f4 : List RiskFactor × ℕ :=
    if ndvi < 2 / 5 then
      ([⟨"Vegetation Stress", randint f3.2 15 25, "Low NDVI indicates crop stress"⟩], f3.2 + 1)
    else ([], f3.2)
  let base := f1.1 ++ f2.1 ++ f3.1 ++ f4.1
  if base.length < 2 ∧ 60 < risk_score then
    base ++ [⟨"Favorable Pest Climate", randint f4.2 15 25,
             "Environmental conditions match pest lifecycle"⟩]
  else base

/-- The in-place normalization at the end of `_generate_risk_factors`:
`int((contribution / total) * 100)` over the gathered factors, skipped when
the total is not positive. -/
def generate_risk_factors (randint : ℕ → ℤ → ℤ → ℤ) (features : FDict)
    (risk_score : ℤ) (threat_type : String) : List RiskFactor :=
  let _ := threat_type
  let factors := gatherRiskFactors randint features risk_score
  let total : ℤ := (factors.map RiskFactor.contribution).sum
  if 0 < total then
    factors.map (fun f =>
      { f with contribution := pyInt (((f.contribution : ℚ) / (total : ℚ)) * 100) })
  else factors

/-- One prediction record of `predict_batch` (`**cell` plus the added keys;
the constant `model_metadata` block is omitted). -/
structure AgriPrediction where
  cell : GridCell
  risk_score : ℤ
  risk_level : String
  confidence : ℚ
  risk_factors : List RiskFactor
deriving DecidableEq, Repr, Inhabited

/-- Per-cell body of `RiskPredictionModel.predict_batch`: clean the features
(silently substituting `agriDefault` for every missing one), run the black-box
regressor `modelPredict` on the reordered row, clip to [0, 100], round to an
integer score, then derive level, confidence (penalized when inputs were
missing) and the explanation. -/
def predictCell (featureNames : List String) (modelPredict : FDict → ℚ)
    (randint : ℕ → ℤ → ℤ → ℤ) (threat_type : String) (cell : GridCell) :
    AgriPrediction :=
  let row := cleanRow featureNames cell.features
  let raw := modelPredict row
  let clipped := qclip raw 0 100
  let risk_score : ℤ := roundHalfEven clipped
  let missing := missingCount featureNames cell.features
  let conf0 := calculate_confidence (risk_score : ℚ) row
  let confidence :=
    if 0 < missing then
      conf0 * max (1 / 2) (1 - (missing : ℚ) / (featureNames.length : ℚ))
    else conf0
  { cell := cell
    risk_score := risk_score
    risk_level := categorize_risk (risk_score : ℚ)
    confidence := confidence
    risk_factors := generate_risk_factors randint row risk_score threat_type }

/-- `RiskPredictionModel.predict_batch`: raises only when the model is not
loaded; otherwise it never fails, whatever keys the feature dicts are missing. -/
def predict_batch (featureNames : List String) (modelPredict : FDict → ℚ)
    (randint : ℕ → ℤ → ℤ → ℤ) (is_loaded : Bool) (cells : List GridCell)
    (threat_type : String) : Except String (List AgriPrediction) :=
  if !is_loaded then .error "Model not loaded. Cannot make predictions."
  else .ok (cells.map (predictCell featureNames modelPredict randint threat_type))

/-! ## Insurance risk model (backend/models/insurance_model.py) -/

/-- The `required_features` list of `InsuranceRiskModel.predict`. -/
def insurance_required_features : List String :=
  ["agri_risk_score", "claims_history_index", "yield_stability",
   "weather_volatility", "market_stability", "soil_quality"]

/-- Numeric lookup in the insurance feature dict (`features[feature]`). -/
def qlookup (features : List (String × ℚ)) (key : String) : Option ℚ :=
  (features.find? (fun kv => kv.1 = key)).map Prod.snd

/-- The validation loop of `InsuranceRiskModel.predict`: a missing required
feature raises `ValueError("Missing required feature: ...")` at once; a present
`agri_risk_score` outside [0, 100] raises the range error; other features
out of [0, 1] only print a warning (no failure). -/
def insuranceValidate (features : List (String × ℚ)) : List String → Except String Unit
  | [] => .ok ()
  | f :: fs =>
      match qlookup features f with
      | none => .error ("Missing required feature: " ++ f)
      | some val =>
          if f = "agri_risk_score" ∧ ¬(0 ≤ val ∧ val ≤ 100) then
            .error ("agri_risk_score must be between 0 and 100, got " ++ toString val)
          else insuranceValidate features fs

/-- `DataFrame([features], columns=required_features)`: the feature row
projected into training column order (validation has ensured presence). -/
def insuranceRow (features : List (String × ℚ)) : List (String × ℚ) :=
  insurance_required_features.map (fun f => (f, (qlookup features f).getD 0))

/-- The first model-required feature name absent from an insurance feature
dict (the one the validation loop reports). -/
def firstMissingFeature (features : List (String × ℚ)) : String :=
  (insurance_required_features.filter (fun f => (qlookup features f).isNone)).headI

/-- `InsuranceRiskModel.predict`: validate, reorder, and return the raw
black-box regression output unchanged (`float(prediction)`) — no clipping. -/
def insurance_predict (modelPredict : List (String × ℚ) → ℚ) (is_loaded : Bool)
    (features : List (String × ℚ)) : Except String ℚ :=
  if !is_loaded then .error "Model not loaded"
  else
    match insuranceValidate features insurance_required_features with
    | .error e => .error e
    | .ok _ => .ok (modelPredict (insuranceRow features))

/-! ## Deterministic context generator (backend/services/data_service.py) -/

/-- Decimal digits of a natural number, padded on the left with zeros to
`width` digits (helper for the fixed-point formatting below). -/
def padDigits (width : ℕ) (n : ℕ) : String :=
  let s := toString n
  String.mk (List.replicate (width - s.length) '0') ++ s

/-- Python `f"{q:.4f}"`: fixed-point formatting with 4 decimal places, round
half to even.  The sign is taken from the value itself (a rational has no
negative zero; `-0.0` floats, which Python renders with a sign, do not arise
from the claims' inputs). -/
def format4 (q : ℚ) : String :=
  let m : ℤ := roundHalfEven (|q| * 10 ^ 4)
  let sign := if q < 0 then "-" else ""
  sign ++ toString (m.toNat / 10 ^ 4) ++ "." ++ padDigits 4 (m.toNat % 10 ^ 4)

/-- The key string of `DataService._get_deterministic_seed`:
`f"{lat:.4f}_{lon:.4f}_{date_val.year}_{date_val.month}"`. -/
def contextKey (lat lon : ℚ) (year month : ℕ) : String :=
  format4 lat ++ "_" ++ format4 lon ++ "_" ++ toString year ++ "_" ++ toString month

/-- `DataService._get_deterministic_seed`: sha256 of the key (abstracted as the
capability `sha`), reduced mod 2^32. -/
def deterministic_seed (sha : String → ℕ) (lat lon : ℚ) (year month : ℕ) : ℕ :=
  sha (contextKey lat lon year month) % 2 ^ 32

/-- The five-field context dict returned by `DataService.get_context_data`. -/
structure ContextData where
  weather_volatility : ℚ
  market_stability : ℚ
  soil_quality : ℚ
  claims_history_index : ℚ
  yield_stability : ℚ
deriving DecidableEq, Repr, Inhabited

/-- `DataService.get_context_data`.  `normal seed i sigma` abstracts the i-th
sequential `rng.normal(0, sigma)` draw of `np.random.RandomState(seed)`; the
calendar year and month come from `date.today()` and are passed in.  Note the
tropics adjustment tests the raw latitude, not the rounded one. -/
def get_context_data (sha : String → ℕ) (normal : ℕ → ℕ → ℚ → ℚ)
    (lat lon agri_risk_score : ℚ) (year month : ℕ) : ContextData :=
  let seed := deterministic_seed sha lat lon year month
  let base_volatility : ℚ := if |lat| < 20 then 3 / 10 + 1 / 5 else 3 / 10
  let weather_volatility := qclip (base_volatility + normal seed 0 (1 / 10)) (1 / 10) (9 / 10)
  let market_stability := qclip (1 / 2 + normal seed 1 (3 / 20)) (1 / 5) (9 / 10)
  let base_soil : ℚ := 1 - agri_risk_score / 100
  let soil_quality := qclip (base_soil + normal seed 2 (1 / 10)) (1 / 10) (19 / 20)
  let claims_history := qclip (agri_risk_score / 100 * (4 / 5) + normal seed 3 (1 / 20)) 0 1
  let yield_stability :=
    qclip (1 - weather_volatility * (3 / 5) + normal seed 4 (1 / 20)) (1 / 10) (19 / 20)
  { weather_volatility := round2 weather_volatility
    market_stability := round2 market_stability
    soil_quality := round2 soil_quality
    claims_history_index := round2 claims_history
    yield_stability := round2 yield_stability }

/-! ## Concrete fixtures used by the witnesses and counterexamples -/

/-- The polygon of the grid scenario: `[(0,35.0), (0,35.1), (0.1,35.1), (0.1,35.0)]`. -/
def testPolyC5 : List GeoPoint :=
  [⟨0, 35⟩, ⟨0, 351 / 10⟩, ⟨1 / 10, 351 / 10⟩, ⟨1 / 10, 35⟩]

/-- A unit square polygon. -/
def unitSquare : List GeoPoint := [⟨0, 0⟩, ⟨0, 1⟩, ⟨1, 1⟩, ⟨1, 0⟩]

/-- A 13-digit rational enclosure of `math.cos(math.radians(0.05))`
= 0.99999961922820…, the longitude correction factor for the scenario
polygon's mean latitude. -/
def cosC5 : ℚ := 9999996192282 / 10 ^ 13

/-- A cosine capability that is exactly 1 (its value only matters through the
hypotheses of the theorems that consume it). -/
def oneCos : ℚ → ℚ := fun _ => 1

/-- A sampler whose every call raises (the `except` branch). -/
def errSampler : GridCell → Except Unit (Option ℚ) := fun _ => .error ()

/-- A sampler that always returns the value `0` (a "falsy" sample). -/
def zeroSampler : GridCell → Except Unit (Option ℚ) := fun _ => .ok (some 0)

/-- A concrete featureless grid cell. -/
def baseCell : GridCell := ⟨"cell-0", ⟨1 / 2, 1 / 2⟩, ⟨⟨0, 0⟩, ⟨1, 1⟩⟩, []⟩

/-- A haversine capability that returns 0 for every pair of points. -/
def hav0 : ℚ → ℚ → ℚ → ℚ → ℚ := fun _ _ _ _ => 0

/-- A distance estimator returning 1000 m for every draw. -/
def est1000 : ℕ → ℚ := fun _ => 1000

/-- A digest capability hashing everything to 0. -/
def sha0 : String → ℕ := fun _ => 0

/-- A normal-draw capability returning 0 for every draw. -/
def norm0 : ℕ → ℕ → ℚ → ℚ := fun _ _ _ => 0

/-- A `random.randint` oracle returning the lower end of the range. -/
def randLo : ℕ → ℤ → ℤ → ℤ := fun _ a _ => a

/-- A fully valid insurance feature dict with `agri_risk_score = 50`. -/
def insFeats : List (String × ℚ) :=
  [("agri_risk_score", 50), ("claims_history_index", 1 / 2),
   ("yield_stability", 1 / 2), ("weather_volatility", 1 / 2),
   ("market_stability", 1 / 2), ("soil_quality", 1 / 2)]

/-- The prediction `predict_batch` produces for `baseCell` (no features) with
feature list `["ndvi"]` and a black-box model returning 50: score 50/"medium",
confidence halved by the missing-feature penalty, empty explanation. -/
def missNdviPred : AgriPrediction := ⟨baseCell, 50, "medium", 1 / 2, []⟩

/-- The prediction `predict_batch` produces for `baseCell` (no features) with
feature list `["ndvi"]` and a black-box model returning 500: raw output
clipped to 100, hence "critical", with the injected fallback factor. -/
def clipPred : AgriPrediction :=
  ⟨baseCell, 100, "critical", 7 / 20,
   [⟨"Favorable Pest Climate", 100, "Environmental conditions match pest lifecycle"⟩]⟩

/-- Latitude 19.99999 (rounds to "20.0000", lies inside the tropics band). -/
def lat1C6 : ℚ := 1999999 / 100000

/-- Latitude 20.00001 (rounds to "20.0000", lies outside the tropics band). -/
def lat2C6 : ℚ := 2000001 / 100000

/-- Latitude 0.12341 (rounds to "0.1234"). -/
def latW1 : ℚ := 12341 / 100000

/-- Latitude 0.123412 (rounds to "0.1234", differs from `latW1` only beyond
the 4th decimal place). -/
def latW2 : ℚ := 123412 / 1000000

/-- The full pipeline output for one featureless cell when every external
capability errors or returns "no data": zero images, failing samplers, zero
haversine, constant placeholder estimators. -/
def c2pipe : List ModelInput :=
  format_for_model_input
    (fe_extract_features_for_cells 0 errSampler hav0 est1000 est1000 est1000
      50 6 2 errSampler errSampler 6 unitSquare none [baseCell])

/-! ## Helper lemmas -/

theorem roundHalfEven_intCast (n : ℤ) : roundHalfEven (n : ℚ) = n := by
  unfold roundHalfEven
  simp [Int.floor_intCast]

theorem roundHalfEven_eq_of_lt_half (q : ℚ) (m : ℤ) (h1 : (m : ℚ) ≤ q)
    (h2 : q < (m : ℚ) + 1 / 2) : roundHalfEven q = m := by
  have hf : ⌊q⌋ = m := by
    rw [Int.floor_eq_iff]
    constructor
    · exact_mod_cast h1
    · push_cast
      linarith
  unfold roundHalfEven
  rw [hf, if_pos (by linarith : q - (m : ℚ) < 1 / 2)]

theorem roundHalfEven_eq_of_half_lt (q : ℚ) (m : ℤ) (h1 : (m : ℚ) + 1 / 2 < q)
    (h2 : q < (m : ℚ) + 1) : roundHalfEven q = m + 1 := by
  have hf : ⌊q⌋ = m := by
    rw [Int.floor_eq_iff]
    constructor
    · push_cast
      linarith
    · push_cast
      linarith
  unfold roundHalfEven
  rw [hf, if_neg (by linarith : ¬(q - (m : ℚ) < 1 / 2)),
    if_pos (by linarith : 1 / 2 < q - (m : ℚ))]

theorem roundHalfEven_le (q : ℚ) : (roundHalfEven q : ℚ) ≤ q + 1 / 2 := by
  unfold roundHalfEven
  have hfl : (⌊q⌋ : ℚ) ≤ q := Int.floor_le q
  have hfu : q < (⌊q⌋ : ℚ) + 1 := Int.lt_floor_add_one q
  split_ifs <;> push_cast <;> linarith

theorem le_roundHalfEven (q : ℚ) : q - 1 / 2 ≤ (roundHalfEven q : ℚ) := by
  unfold roundHalfEven
  have hfl : (⌊q⌋ : ℚ) ≤ q := Int.floor_le q
  have hfu : q < (⌊q⌋ : ℚ) + 1 := Int.lt_floor_add_one q
  split_ifs with h1 h2 <;> push_cast <;> linarith

theorem roundTo_eq_of_mul_eq (k : ℕ) (q : ℚ) (m : ℤ) (h : q * 10 ^ k = (m : ℚ)) :
    roundTo k q = (m : ℚ) / 10 ^ k := by
  rw [roundTo, h, roundHalfEven_intCast]

theorem qclip_le (x lo hi : ℚ) (h : lo ≤ hi) : qclip x lo hi ≤ hi := by
  unfold qclip
  rw [max_le_iff]
  exact ⟨h, min_le_right x hi⟩

theorem le_qclip (x lo hi : ℚ) : lo ≤ qclip x lo hi := le_max_left lo (min x hi)

theorem pyInt_eq_floor (q : ℚ) (h : 0 ≤ q) : pyInt q = ⌊q⌋ := if_pos h

/-- The extra edge contributed by duplicating a vertex never toggles the
parity: its endpoints share one longitude, so the strict-lower-bound test in
the crossing guard fails. -/
theorem edgeToggle_self (lat lng : ℚ) (p : GeoPoint) :
    edgeToggle lat lng (p, p) = false := by
  unfold edgeToggle
  have : ¬(min p.lng p.lng < lng ∧ lng ≤ max p.lng p.lng) := by
    rintro ⟨h1, h2⟩
    rw [min_self] at h1
    rw [max_self] at h2
    linarith
  rw [if_neg this]

theorem polyEdges_append_head (p : GeoPoint) (ps : List GeoPoint) :
    polyEdges ((p :: ps) ++ [p]) = polyEdges (p :: ps) ++ [(p, p)] := by
  show ((p :: ps) ++ [p]).zip ((ps ++ [p]) ++ [p]) = (p :: ps).zip (ps ++ [p]) ++ [(p, p)]
  rw [List.zip_append (by simp)]
  simp

/-! ## C3 and its witness -/

/-- C3: every cell emitted by `create_grid_cells` for a polygon with at least
3 vertices and a positive cell size has a center that `_point_in_polygon`
classifies as inside; no cell with an outside center is emitted (the grid
keeps exactly the tiles whose center passes the ray-casting test). -/
theorem C3_grid_centers_inside (cosDeg : ℚ → ℚ) (polygon : List GeoPoint)
    (s : ℚ) (h3 : 3 ≤ polygon.length) (hs : 0 < s) :
    ∀ cell ∈ create_grid_cells cosDeg polygon s,
      point_in_polygon cell.center.lat cell.center.lng polygon = true := by
  intro cell hc
  simp only [create_grid_cells, List.mem_map] at hc
  obtain ⟨ic, hmem, hcell⟩ := hc
  rw [List.mem_enum_iff_getElem?] at hmem
  have hkept := List.getElem?_mem hmem
  rw [List.mem_filter] at hkept
  rw [← hcell]
  exact hkept.2

/-- Witness for C3: the unit square with 111 km cells yields the single cell
`baseCell`, whose center (0.5, 0.5) the ray-casting test accepts. -/
theorem C3_witness :
    point_in_polygon baseCell.center.lat baseCell.center.lng unitSquare = true := by
  apply C3_grid_centers_inside oneCos unitSquare 111 (by decide) (by norm_num)
  show baseCell ∈ create_grid_cells oneCos unitSquare 111
  have hax : gridAxis 0 1 1 = [0] := by
    rw [gridAxis]
    norm_num
    rw [gridAxis]
    norm_num
  have hpip : ∀ a b : ℚ, a = 1 / 2 → b = 1 / 2 →
      point_in_polygon a b [⟨0, 0⟩, ⟨0, 1⟩, ⟨1, 1⟩, ⟨1, 0⟩] = true := by
    intro a b ha hb
    subst ha hb
    norm_num [point_in_polygon, polyEdges, edgeToggle, min_def, max_def]
  unfold create_grid_cells
  norm_num [unitSquare, qListMin, qListMax, oneCos, hax]
  refine ⟨0, 0, 0, ?_, ?_⟩
  · rw [List.filter_cons]
    rw [hpip ((0 : ℚ × ℚ).1 + 1 / 2) ((0 : ℚ × ℚ).2 + 1 / 2) (by norm_num) (by norm_num)]
    simp
  have hid : ("cell-" ++ toString (0 : ℕ)) = "cell-0" := rfl
  simp only [baseCell, GridCell.mk.injEq, GeoPoint.mk.injEq, CellBounds.mk.injEq, hid]
  norm_num

/-! ## C9 and its witness -/

/-- C9: for a polygon with at least 3 vertices, explicitly closing it by
appending a copy of its first vertex does not change `_point_in_polygon` for
any query point: the appended degenerate edge has equal endpoint longitudes,
so it can never satisfy the strict crossing guard and never flips the parity. -/
theorem C9_closure_no_effect (lat lng : ℚ) (poly : List GeoPoint)
    (h3 : 3 ≤ poly.length) :
    point_in_polygon lat lng (poly ++ [poly.headI]) =
      point_in_polygon lat lng poly := by
  match poly, h3 with
  | p :: ps, _ =>
    show point_in_polygon lat lng ((p :: ps) ++ [p]) = _
    unfold point_in_polygon
    rw [polyEdges_append_head, List.foldl_append]
    simp [edgeToggle_self]

/-- Witness for C9: closing the unit square leaves the classification of the
point (1/2, 1/2) unchanged. -/
theorem C9_witness :
    point_in_polygon (1 / 2) (1 / 2) (unitSquare ++ [unitSquare.headI]) =
      point_in_polygon (1 / 2) (1 / 2) unitSquare :=
  C9_closure_no_effect (1 / 2) (1 / 2) unitSquare (by decide)

/-! ## C10 and its witness -/

/-- C10: a sampled vegetation index of exactly 0 is treated like a missing
sample by the truthiness check: the pipeline's satellite layer replaces it with
the 0.5 default and classifies the cell as grassland (encoded 2) rather than
binning 0 as sparse (encoded 0), and the GEE extractor stores None for it. -/
theorem C10_zero_ndvi_like_missing (imageCount : ℕ) (hn : imageCount ≠ 0)
    (sampler gsampler : GridCell → Except Unit (Option ℚ))
    (imageUrls : List String) (cell : GridCell)
    (hs : sampler cell = .ok (some 0)) (hg : gsampler cell = .ok (some 0)) :
    fe_extract_satellite_features imageCount sampler [cell] = [feSatCell sampler cell]
    ∧ (feSatCell sampler cell).features =
        [("ndvi", .num (1 / 2)), ("vegetation_type", .str "grassland"),
         ("vegetation_type_encoded", .num 2)]
    ∧ gee_extract_features_for_cells imageCount imageUrls gsampler [cell] =
        [geeSatCell imageCount imageUrls gsampler cell]
    ∧ dictGet (geeSatCell imageCount imageUrls gsampler cell).features "ndvi" =
        some FVal.null := by
  refine ⟨by simp [fe_extract_satellite_features, hn], ?_, by simp [gee_extract_features_for_cells, hn], ?_⟩
  · unfold feSatCell
    rw [hs]
    have hidx : List.indexOf "grassland" vegTypes = 2 := by decide
    norm_num [pyTruthy, hidx]
  · unfold geeSatCell
    rw [hg]
    norm_num [pyTruthy, dictSet, dictGet]
    rw [if_neg (by decide), if_neg (by decide)]

/-- Witness for C10: a concrete sampler returning exactly 0 on `baseCell`. -/
theorem C10_witness :
    (feSatCell zeroSampler baseCell).features =
        [("ndvi", .num (1 / 2)), ("vegetation_type", .str "grassland"),
         ("vegetation_type_encoded", .num 2)]
    ∧ dictGet (geeSatCell 1 [] zeroSampler baseCell).features "ndvi" =
        some FVal.null := by
  have h := C10_zero_ndvi_like_missing 1 (by decide) zeroSampler zeroSampler []
    baseCell rfl rfl
  exact ⟨h.2.1, h.2.2.2⟩

/-! ## C7, its counterexample and witness -/

/-- C7 (amended): with zero cloud-free images neither satellite extractor
fails, but the two zero-image branches differ from the claim: the pipeline
layer (`FeatureExtractor._extract_satellite_features`) gives every cell
`ndvi = 0.5` and `vegetation_type = 'grassland'` and no `image_count` key at
all, while the GEE extractor (`GEESatellite.extract_features_for_cells`) gives
every cell `ndvi = None` (not 0.5) and `image_count = 0`. -/
theorem C7_zero_images_defaults (sampler gsampler : GridCell → Except Unit (Option ℚ))
    (imageUrls : List String) (cells : List GridCell) :
    (∀ c ∈ fe_extract_satellite_features 0 sampler cells,
        c.features = [("ndvi", .num (1 / 2)), ("vegetation_type", .str "grassland")])
    ∧ (∀ c ∈ gee_extract_features_for_cells 0 imageUrls gsampler cells,
        c.features = [("ndvi", FVal.null), ("image_count", .num 0)]) := by
  constructor
  · intro c hc
    unfold fe_extract_satellite_features at hc
    rw [if_pos rfl, List.mem_map] at hc
    obtain ⟨x, _, heq⟩ := hc
    rw [← heq]
  · intro c hc
    unfold gee_extract_features_for_cells at hc
    rw [if_pos rfl, List.mem_map] at hc
    obtain ⟨x, _, heq⟩ := hc
    rw [← heq]

/-- Counterexample to C7 as stated: at zero images, the pipeline layer's cells
have no `image_count` feature at all (so "image_count equals 0" fails there),
and the GEE extractor's cells carry `ndvi = None`, not the 0.5 default. -/
theorem C7_counterexample :
    dictGet (fe_extract_satellite_features 0 errSampler [baseCell]).head!.features
        "image_count" = none
    ∧ dictGet (gee_extract_features_for_cells 0 [] errSampler [baseCell]).head!.features
        "ndvi" = some FVal.null
    ∧ FVal.null ≠ FVal.num (1 / 2) := by
  refine ⟨?_, ?_, by simp⟩
  · simp [fe_extract_satellite_features, dictGet]
  · simp [gee_extract_features_for_cells, dictGet]

/-- Witness for C7 (amended) at a concrete cell and failing sampler. -/
theorem C7_witness :
    (fe_extract_satellite_features 0 errSampler [baseCell]).head!.features =
        [("ndvi", .num (1 / 2)), ("vegetation_type", .str "grassland")]
    ∧ (gee_extract_features_for_cells 0 [] errSampler [baseCell]).head!.features =
        [("ndvi", FVal.null), ("image_count", .num 0)] := by
  have h := C7_zero_images_defaults errSampler errSampler [] [baseCell]
  constructor
  · exact h.1 _ (List.head!_mem_self (by simp [fe_extract_satellite_features]))
  · exact h.2 _ (List.head!_mem_self (by simp [gee_extract_features_for_cells]))

/-! ## C1: missing required features -/

theorem filter_headI_prop {α : Type} [Inhabited α] (p : α → Bool) (l : List α)
    (h : l.filter p ≠ []) : p ((l.filter p).headI) = true := by
  match hf : l.filter p with
  | [] => exact absurd hf h
  | x :: xs =>
    have hx : x ∈ l.filter p := by
      rw [hf]
      exact List.mem_cons_self x xs
    simpa using (List.mem_filter.mp hx).2

theorem insuranceValidate_names_first (feats : List (String × ℚ)) :
    ∀ fs : List String, "agri_risk_score" ∉ fs →
      (∃ f ∈ fs, qlookup feats f = none) →
      insuranceValidate feats fs =
        .error ("Missing required feature: " ++
          (fs.filter (fun f => (qlookup feats f).isNone)).headI) := by
  intro fs
  induction fs with
  | nil => rintro - ⟨f, hf, -⟩; exact absurd hf (List.not_mem_nil f)
  | cons f0 rest ih =>
    rintro hna ⟨f, hf, hfnone⟩
    match h0 : qlookup feats f0 with
    | none =>
        rw [List.filter_cons]
        simp only [insuranceValidate, h0]
        simp
    | some v =>
        have hne : f0 ≠ "agri_risk_score" := fun he => hna (he ▸ List.mem_cons_self f0 rest)
        have hcond : ¬(f0 = "agri_risk_score" ∧ ¬(0 ≤ v ∧ v ≤ 100)) := fun hc => hne hc.1
        have hfrest : f ∈ rest := by
          rcases List.mem_cons.mp hf with he | hr
          · exact absurd (he ▸ hfnone) (by simp [h0])
          · exact hr
        rw [List.filter_cons]
        have hstep : insuranceValidate feats (f0 :: rest) = insuranceValidate feats rest := by
          simp only [insuranceValidate, h0, if_neg hcond]
        rw [hstep, ih (fun hm => hna (List.mem_cons_of_mem f0 hm)) ⟨f, hfrest, hfnone⟩]
        simp [h0]

/-- C1 (amended): only the insurance predictor fails on a missing
model-required feature, with a `ValueError` naming the first absent key
(provided `agri_risk_score` itself is absent or within range, since its range
check precedes the remaining presence checks); the agricultural
`predict_batch` never raises for missing features — it silently substitutes
the documented per-feature defaults and carries on. -/
theorem C1_missing_feature_behavior :
    (∀ (mp : List (String × ℚ) → ℚ) (feats : List (String × ℚ)),
      (∃ f ∈ insurance_required_features, qlookup feats f = none) →
      (qlookup feats "agri_risk_score" = none ∨
        ∃ v, qlookup feats "agri_risk_score" = some v ∧ 0 ≤ v ∧ v ≤ 100) →
      insurance_predict mp true feats =
        .error ("Missing required feature: " ++ firstMissingFeature feats)
      ∧ qlookup feats (firstMissingFeature feats) = none)
    ∧ (∀ fn mp ri cells tt,
        predict_batch fn mp ri true cells tt =
          .ok (cells.map (predictCell fn mp ri tt))) := by
  constructor
  · intro mp feats hex hagri
    have hfilterne :
        insurance_required_features.filter (fun f => (qlookup feats f).isNone) ≠ [] := by
      obtain ⟨f, hf, hfnone⟩ := hex
      intro hemp
      have : f ∈ insurance_required_features.filter (fun f => (qlookup feats f).isNone) :=
        List.mem_filter.mpr ⟨hf, by simp [hfnone]⟩
      rw [hemp] at this
      exact absurd this (List.not_mem_nil f)
    have hnone : qlookup feats (firstMissingFeature feats) = none := by
      have := filter_headI_prop (fun f => (qlookup feats f).isNone)
        insurance_required_features hfilterne
      simpa [firstMissingFeature, Option.isNone_iff_eq_none] using this
    refine ⟨?_, hnone⟩
    unfold insurance_predict
    rw [show (!true) = false from rfl, if_neg (by simp)]
    have hval : insuranceValidate feats insurance_required_features =
        .error ("Missing required feature: " ++ firstMissingFeature feats) := by
      unfold firstMissingFeature
      rcases hagri with hanone | ⟨v, hav, hv0, hv100⟩
      · show insuranceValidate feats ("agri_risk_score" :: _) = _
        simp only [insuranceValidate, hanone]
        rw [show insurance_required_features.filter (fun f => (qlookup feats f).isNone) =
          "agri_risk_score" :: (["claims_history_index", "yield_stability",
            "weather_volatility", "market_stability",
            "soil_quality"].filter (fun f => (qlookup feats f).isNone)) by
          simp [insurance_required_features, List.filter_cons, hanone]]
        simp [List.headI]
      · have hcond : ¬("agri_risk_score" = "agri_risk_score" ∧ ¬(0 ≤ v ∧ v ≤ 100)) :=
          fun hc => hc.2 ⟨hv0, hv100⟩
        have hstep : insuranceValidate feats insurance_required_features =
            insuranceValidate feats ["claims_history_index", "yield_stability",
              "weather_volatility", "market_stability", "soil_quality"] := by
          show insuranceValidate feats ("agri_risk_score" :: _) = _
          simp [insuranceValidate, hav, hv0, hv100]
        have hfeq : insurance_required_features.filter (fun f => (qlookup feats f).isNone) =
            ["claims_history_index", "yield_stability", "weather_volatility",
              "market_stability", "soil_quality"].filter (fun f => (qlookup feats f).isNone) := by
          simp [insurance_required_features, List.filter_cons, hav]
        rw [hstep, hfeq]
        have hex2 : ∃ f ∈ ["claims_history_index", "yield_stability",
            "weather_volatility", "market_stability", "soil_quality"],
            qlookup feats f = none := by
          obtain ⟨f, hf, hfnone⟩ := hex
          refine ⟨f, ?_, hfnone⟩
          rcases List.mem_cons.mp hf with he | hr
          · exact absurd (he ▸ hfnone) (by simp [hav])
          · exact hr
        exact insuranceValidate_names_first feats _ (by decide) hex2
    rw [hval]
  · intro fn mp ri cells tt
    rfl

theorem cleanRow_ndvi_missing :
    cleanRow ["ndvi"] [] = [("ndvi", FVal.num (3 / 5))] := by
  unfold cleanRow cleanFeature agriDefault
  have h2 : strContainsSub "ndvi" "encoded" = false := by decide
  have h3 : strContainsSub "ndvi" "dist_" = false := by decide
  simp [dictGet, agriMissing, h2, h3]

theorem round3_one : round3 (1 : ℚ) = 1 := by
  rw [round3, roundTo_eq_of_mul_eq 3 1 1000 (by norm_num)]
  norm_num

theorem genFactors_ndvi_row (rs : ℤ) (h60 : ¬(60 < rs)) :
    generate_risk_factors randLo [("ndvi", FVal.num (3 / 5))] rs "pest_disease" = [] := by
  unfold generate_risk_factors gatherRiskFactors
  have h1 : dictGetNum [("ndvi", FVal.num (3 / 5))] "humidity" 50 = 50 := by
    simp [dictGetNum, dictGetD, dictGet, fnum]
  have h2 : dictGetNum [("ndvi", FVal.num (3 / 5))] "soil_moisture" (1 / 2) = 1 / 2 := by
    simp [dictGetNum, dictGetD, dictGet, fnum]
  have h3 : dictGetNum [("ndvi", FVal.num (3 / 5))] "pest_pressure_history" 0 = 0 := by
    simp [dictGetNum, dictGetD, dictGet, fnum]
  have h4 : dictGetNum [("ndvi", FVal.num (3 / 5))] "ndvi" (3 / 5) = 3 / 5 := by
    simp [dictGetNum, dictGetD, dictGet, fnum]
  rw [h1, h2, h3, h4]
  norm_num [h60]

theorem predictCell_missNdvi :
    predictCell ["ndvi"] (fun _ => (50 : ℚ)) randLo "pest_disease" baseCell =
      missNdviPred := by
  have hrow : cleanRow ["ndvi"] baseCell.features = [("ndvi", FVal.num (3 / 5))] := by
    rw [show baseCell.features = [] from rfl, cleanRow_ndvi_missing]
  have h50 : roundHalfEven (qclip 50 0 100) = 50 := by
    rw [show qclip 50 0 100 = (50 : ℚ) from by norm_num [qclip, min_def, max_def]]
    exact roundHalfEven_eq_of_lt_half 50 50 (by norm_num) (by norm_num)
  have hconf : calculate_confidence ((50 : ℤ) : ℚ) [("ndvi", FVal.num (3 / 5))] = 1 := by
    unfold calculate_confidence
    have hne : decide (FVal.num (3 / 5) = FVal.null) = false := by simp
    norm_num [List.countP, List.countP.go, round3_one, hne]
  have hcat : categorize_risk ((50 : ℤ) : ℚ) = "medium" := by
    unfold categorize_risk
    norm_num
  have hgen := genFactors_ndvi_row 50 (by omega)
  have hmiss : missingCount ["ndvi"] baseCell.features = 1 := by decide
  simp only [predictCell, hrow, h50, hconf, hcat, hgen, hmiss]
  unfold missNdviPred
  norm_num [max_def]

/-- Counterexample to C1 as stated: a feature vector with the model-required
`ndvi` absent does not make the agricultural `predict_batch` fail — it
silently substitutes the default 0.6 and returns an ordinary prediction. -/
theorem C1_counterexample :
    predict_batch ["ndvi"] (fun _ => (50 : ℚ)) randLo true [baseCell] "pest_disease" =
      .ok [missNdviPred]
    ∧ cleanFeature [] "ndvi" = FVal.num (3 / 5) := by
  constructor
  · show Except.ok ([baseCell].map (predictCell ["ndvi"] (fun _ => (50 : ℚ)) randLo "pest_disease")) = _
    rw [List.map_singleton, predictCell_missNdvi]
  · have h := cleanRow_ndvi_missing
    simp [cleanRow] at h
    exact h

/-- Witness for C1 (amended): a dict holding only a valid `agri_risk_score`
makes the insurance predictor fail naming `claims_history_index` (its first
missing required key), while `predict_batch` still succeeds on a featureless
cell. -/
theorem C1_witness :
    (insurance_predict (fun _ => 0) true [("agri_risk_score", 50)] =
        .error ("Missing required feature: " ++
          firstMissingFeature [("agri_risk_score", 50)])
      ∧ qlookup [("agri_risk_score", (50 : ℚ))]
          (firstMissingFeature [("agri_risk_score", 50)]) = none)
    ∧ predict_batch ["ndvi"] (fun _ => (50 : ℚ)) randLo true [baseCell] "other" =
        .ok ([baseCell].map (predictCell ["ndvi"] (fun _ => (50 : ℚ)) randLo "other")) := by
  constructor
  · exact C1_missing_feature_behavior.1 (fun _ => 0) [("agri_risk_score", 50)]
      ⟨"claims_history_index", by decide, by simp [qlookup]⟩
      (Or.inr ⟨50, by simp [qlookup], by norm_num, by norm_num⟩)
  · exact C1_missing_feature_behavior.2 ["ndvi"] (fun _ => (50 : ℚ)) randLo [baseCell] "other"

/-! ## C4: clipping of risk scores -/

theorem roundHalfEven_mem_0_100 (q : ℚ) (h0 : 0 ≤ q) (h100 : q ≤ 100) :
    0 ≤ roundHalfEven q ∧ roundHalfEven q ≤ 100 := by
  have hle := roundHalfEven_le q
  have hge := le_roundHalfEven q
  constructor
  · have h1 : (-1 : ℚ) < (roundHalfEven q : ℚ) := by linarith
    have h2 : (-1 : ℤ) < roundHalfEven q := by exact_mod_cast h1
    omega
  · have h1 : (roundHalfEven q : ℚ) < 101 := by linarith
    have h2 : roundHalfEven q < (101 : ℤ) := by exact_mod_cast h1
    omega

/-- C4 (amended): on the agricultural path, `predict_batch` clips the raw
regression output into [0, 100] before returning it, for every feature vector
and every raw output; on the insurance path, `InsuranceRiskModel.predict`
returns the raw regression output unchanged — it performs no clipping. -/
theorem C4_clipping_behavior :
    (∀ fn mp ri tt cells l,
      predict_batch fn mp ri true cells tt = .ok l →
      ∀ p ∈ l, 0 ≤ p.risk_score ∧ p.risk_score ≤ 100)
    ∧ (∀ (mp : List (String × ℚ) → ℚ) feats r,
        insurance_predict mp true feats = .ok r → r = mp (insuranceRow feats)) := by
  constructor
  · intro fn mp ri tt cells l hl p hp
    have hl2 : Except.ok (cells.map (predictCell fn mp ri tt)) = Except.ok l := hl
    have hl3 : cells.map (predictCell fn mp ri tt) = l := by
      injection hl2
    rw [← hl3, List.mem_map] at hp
    obtain ⟨c, -, hpc⟩ := hp
    have hrs : p.risk_score =
        roundHalfEven (qclip (mp (cleanRow fn c.features)) 0 100) := by
      rw [← hpc]
      rfl
    have h0 : (0 : ℚ) ≤ qclip (mp (cleanRow fn c.features)) 0 100 :=
      le_qclip _ 0 100
    have h100 : qclip (mp (cleanRow fn c.features)) 0 100 ≤ 100 :=
      qclip_le _ 0 100 (by norm_num)
    rw [hrs]
    exact roundHalfEven_mem_0_100 _ h0 h100
  · intro mp feats r h
    unfold insurance_predict at h
    rw [show (!true) = false from rfl, if_neg (by simp)] at h
    match hv : insuranceValidate feats insurance_required_features with
    | .error e => rw [hv] at h; cases h
    | .ok u => rw [hv] at h; exact (Except.ok.injEq _ _).mp h.symm

theorem insuranceValidate_insFeats :
    insuranceValidate insFeats insurance_required_features = .ok () := by
  have h : insuranceValidate insFeats insurance_required_features =
      if "agri_risk_score" = "agri_risk_score" ∧ ¬(0 ≤ (50 : ℚ) ∧ (50 : ℚ) ≤ 100) then
        .error ("agri_risk_score must be between 0 and 100, got " ++ toString (50 : ℚ))
      else insuranceValidate insFeats ["claims_history_index", "yield_stability",
        "weather_volatility", "market_stability", "soil_quality"] := rfl
  rw [h, if_neg (by norm_num)]
  rfl

/-- Counterexample to C4 as stated: with a black-box insurance model whose raw
output is 150, `InsuranceRiskModel.predict` returns 150 — outside [0, 100] —
so the insurance path does not clip. -/
theorem C4_counterexample :
    insurance_predict (fun _ => 150) true insFeats = .ok 150
    ∧ ¬((150 : ℚ) ≤ 100) := by
  refine ⟨?_, by norm_num⟩
  unfold insurance_predict
  rw [show (!true) = false from rfl, if_neg (by simp), insuranceValidate_insFeats]

theorem round3_seven_tenths : round3 ((7 : ℚ) / 10) = 7 / 10 := by
  rw [round3, roundTo_eq_of_mul_eq 3 ((7 : ℚ) / 10) 700 (by norm_num)]
  norm_num

theorem genFactors_ndvi_row_100 :
    generate_risk_factors randLo [("ndvi", FVal.num (3 / 5))] 100 "pest_disease" =
      [⟨"Favorable Pest Climate", 100, "Environmental conditions match pest lifecycle"⟩] := by
  unfold generate_risk_factors gatherRiskFactors
  have h1 : dictGetNum [("ndvi", FVal.num (3 / 5))] "humidity" 50 = 50 := by
    simp [dictGetNum, dictGetD, dictGet, fnum]
  have h2 : dictGetNum [("ndvi", FVal.num (3 / 5))] "soil_moisture" (1 / 2) = 1 / 2 := by
    simp [dictGetNum, dictGetD, dictGet, fnum]
  have h3 : dictGetNum [("ndvi", FVal.num (3 / 5))] "pest_pressure_history" 0 = 0 := by
    simp [dictGetNum, dictGetD, dictGet, fnum]
  have h4 : dictGetNum [("ndvi", FVal.num (3 / 5))] "ndvi" (3 / 5) = 3 / 5 := by
    simp [dictGetNum, dictGetD, dictGet, fnum]
  rw [h1, h2, h3, h4]
  have hpy : pyInt (100 : ℚ) = 100 := by
    rw [show (100 : ℚ) = ((100 : ℤ) : ℚ) by norm_num,
      pyInt_eq_floor _ (by norm_num), Int.floor_intCast]
  norm_num [randLo, hpy]

theorem predictCell_clip :
    predictCell ["ndvi"] (fun _ => (500 : ℚ)) randLo "pest_disease" baseCell =
      clipPred := by
  have hrow : cleanRow ["ndvi"] baseCell.features = [("ndvi", FVal.num (3 / 5))] := by
    rw [show baseCell.features = [] from rfl, cleanRow_ndvi_missing]
  have h100 : roundHalfEven (qclip 500 0 100) = 100 := by
    rw [show qclip 500 0 100 = (100 : ℚ) from by norm_num [qclip, min_def, max_def]]
    exact roundHalfEven_eq_of_lt_half 100 100 (by norm_num) (by norm_num)
  have hconf : calculate_confidence ((100 : ℤ) : ℚ) [("ndvi", FVal.num (3 / 5))] = 7 / 10 := by
    unfold calculate_confidence
    have hne : decide (FVal.num (3 / 5) = FVal.null) = false := by simp
    norm_num [List.countP, List.countP.go, hne, round3_seven_tenths]
  have hcat : categorize_risk ((100 : ℤ) : ℚ) = "critical" := by
    unfold categorize_risk
    norm_num
  have hmiss : missingCount ["ndvi"] baseCell.features = 1 := by decide
  simp only [predictCell, hrow, h100, hconf, hcat, hmiss, genFactors_ndvi_row_100]
  unfold clipPred
  norm_num [max_def]

/-- Witness for C4 (amended): a raw agricultural output of 500 is clipped to a
score of 100, and the insurance predictor passes the raw 150 through. -/
theorem C4_witness :
    (0 ≤ clipPred.risk_score ∧ clipPred.risk_score ≤ 100)
    ∧ (150 : ℚ) = (fun _ => (150 : ℚ)) (insuranceRow insFeats) := by
  constructor
  · exact C4_clipping_behavior.1 ["ndvi"] (fun _ => (500 : ℚ)) randLo "pest_disease"
      [baseCell] [clipPred]
      (by rw [show predict_batch ["ndvi"] (fun _ => (500 : ℚ)) randLo true [baseCell]
            "pest_disease" =
          .ok [predictCell ["ndvi"] (fun _ => (500 : ℚ)) randLo "pest_disease" baseCell]
          from rfl, predictCell_clip])
      clipPred (List.mem_singleton.mpr rfl)
  · exact C4_clipping_behavior.2 (fun _ => (150 : ℚ)) insFeats 150
      (by unfold insurance_predict
          rw [show (!true) = false from rfl, if_neg (by simp), insuranceValidate_insFeats])

/-! ## C8: explanation contributions -/

set_option maxHeartbeats 1000000 in
theorem gather_contrib_ge (randint : ℕ → ℤ → ℤ → ℤ)
    (hr : ∀ n a b, a ≤ b → a ≤ randint n a b ∧ randint n a b ≤ b)
    (features : FDict) (rs : ℤ) :
    ∀ f ∈ gatherRiskFactors randint features rs, 15 ≤ f.contribution := by
  simp only [gatherRiskFactors]
  split_ifs
  all_goals simp only [List.forall_mem_append, List.forall_mem_singleton,
    List.forall_mem_nil, and_true, true_and, List.nil_append, List.append_nil]
  all_goals repeat' apply And.intro
  all_goals
    first
      | trivial
      | exact le_trans (by norm_num) (hr _ _ _ (by norm_num)).1

theorem gather_length_le (randint : ℕ → ℤ → ℤ → ℤ) (features : FDict) (rs : ℤ) :
    (gatherRiskFactors randint features rs).length ≤ 4 := by
  simp only [gatherRiskFactors]
  split_ifs <;> simp_all

theorem normSum_bounds (T : ℚ) (hT : 0 < T) :
    ∀ l : List ℤ, (∀ c ∈ l, 0 ≤ c) →
      ((l.map (fun c : ℤ => pyInt ((c : ℚ) / T * 100))).sum : ℚ) ≤ ((l.sum : ℤ) : ℚ) / T * 100
      ∧ ((l.sum : ℤ) : ℚ) / T * 100 - l.length ≤
          ((l.map (fun c : ℤ => pyInt ((c : ℚ) / T * 100))).sum : ℚ) := by
  intro l
  induction l with
  | nil => intro _; norm_num
  | cons c cs ih =>
    intro hpos
    have hc0 : (0 : ℚ) ≤ (c : ℚ) := by exact_mod_cast hpos c (List.mem_cons_self c cs)
    have harg : 0 ≤ (c : ℚ) / T * 100 := by positivity
    have hfl : pyInt ((c : ℚ) / T * 100) = ⌊(c : ℚ) / T * 100⌋ := pyInt_eq_floor _ harg
    have hfle : (⌊(c : ℚ) / T * 100⌋ : ℚ) ≤ (c : ℚ) / T * 100 := Int.floor_le _
    have hflg : (c : ℚ) / T * 100 - 1 < (⌊(c : ℚ) / T * 100⌋ : ℚ) := Int.sub_one_lt_floor _
    obtain ⟨ih1, ih2⟩ := ih (fun x hx => hpos x (List.mem_cons_of_mem c hx))
    have hsum : ((c :: cs).sum : ℚ) = (c : ℚ) + ((cs.sum : ℤ) : ℚ) := by
      push_cast [List.sum_cons]
      ring
    have hdist : (((c :: cs).sum : ℤ) : ℚ) / T * 100 =
        (c : ℚ) / T * 100 + ((cs.sum : ℤ) : ℚ) / T * 100 := by
      rw [hsum, add_div, add_mul]
    constructor
    · rw [hdist, List.map_cons, List.sum_cons, hfl, Int.cast_add]
      linarith
    · rw [hdist, List.map_cons, List.sum_cons, hfl, Int.cast_add, List.length_cons]
      have hlen : (((cs.length + 1 : ℕ)) : ℚ) = (cs.length : ℚ) + 1 := by
        push_cast
        ring
      rw [hlen]
      linarith

/-- C8 (amended): whenever the returned `risk_factors` list is nonempty, its
integer contributions sum to a value in [95, 105] (in fact in (100 − k, 100]
for k ≤ 4 triggered factors); but when no threshold rule triggers and the
score is not above 60, the list is empty and the contributions sum to 0, so
the claim's bound fails in the "no rules trigger" case it asserts. -/
theorem C8_contribution_sum_bounds (randint : ℕ → ℤ → ℤ → ℤ) (features : FDict)
    (rs : ℤ) (tt : String)
    (hr : ∀ n a b, a ≤ b → a ≤ randint n a b ∧ randint n a b ≤ b)
    (hne : generate_risk_factors randint features rs tt ≠ []) :
    95 ≤ ((generate_risk_factors randint features rs tt).map RiskFactor.contribution).sum
    ∧ ((generate_risk_factors randint features rs tt).map RiskFactor.contribution).sum ≤ 105 := by
  have hc := gather_contrib_ge randint hr features rs
  have hlen := gather_length_le randint features rs
  set F := gatherRiskFactors randint features rs with hF
  have hFne : F ≠ [] := by
    intro hemp
    apply hne
    unfold generate_risk_factors
    rw [← hF, hemp]
    simp
  have hT15 : 15 ≤ (F.map RiskFactor.contribution).sum := by
    match hFm : F, hFne with
    | f :: rest, _ =>
      rw [List.map_cons, List.sum_cons]
      have h1 : 15 ≤ f.contribution := hc f (List.mem_cons_self f rest)
      have h2 : 0 ≤ (rest.map RiskFactor.contribution).sum := by
        apply List.sum_nonneg
        intro x hx
        rw [List.mem_map] at hx
        obtain ⟨g, hg, hgx⟩ := hx
        have := hc g (List.mem_cons_of_mem f hg)
        omega
      omega
  set T : ℤ := (F.map RiskFactor.contribution).sum with hTdef
  have hT0 : (0 : ℚ) < (T : ℚ) := by
    have : (15 : ℤ) ≤ T := hT15
    exact_mod_cast lt_of_lt_of_le (by norm_num : (0 : ℤ) < 15) this
  have hgen : generate_risk_factors randint features rs tt =
      F.map (fun f =>
        { f with contribution := pyInt (((f.contribution : ℚ) / (T : ℚ)) * 100) }) := by
    simp only [generate_risk_factors]
    rw [← hF, ← hTdef, if_pos (lt_of_lt_of_le (by norm_num : (0 : ℤ) < 15) hT15)]
  have hmapmap : ((generate_risk_factors randint features rs tt).map RiskFactor.contribution) =
      ((F.map RiskFactor.contribution).map (fun c : ℤ => pyInt ((c : ℚ) / (T : ℚ) * 100))) := by
    rw [hgen, List.map_map, List.map_map]
    rfl
  have hpos : ∀ c ∈ F.map RiskFactor.contribution, (0 : ℤ) ≤ c := by
    intro c hcmem
    rw [List.mem_map] at hcmem
    obtain ⟨g, hg, hgc⟩ := hcmem
    have := hc g hg
    omega
  obtain ⟨hub, hlb⟩ := normSum_bounds (T : ℚ) hT0 (F.map RiskFactor.contribution) hpos
  rw [hmapmap]
  have hTT : ((F.map RiskFactor.contribution).sum : ℚ) / (T : ℚ) * 100 = 100 := by
    rw [← hTdef, div_self (ne_of_gt hT0), one_mul]
  rw [hTT] at hub hlb
  have hlenm : ((F.map RiskFactor.contribution).length : ℚ) ≤ 4 := by
    rw [List.length_map]
    exact_mod_cast hlen
  constructor
  · have : (95 : ℚ) ≤ (((F.map RiskFactor.contribution).map
        (fun c : ℤ => pyInt ((c : ℚ) / (T : ℚ) * 100))).sum : ℚ) := by linarith
    exact_mod_cast this
  · have : (((F.map RiskFactor.contribution).map
        (fun c : ℤ => pyInt ((c : ℚ) / (T : ℚ) * 100))).sum : ℚ) ≤ 105 := by linarith
    exact_mod_cast this

/-- Counterexample to C8 as stated: with no triggered rule and a score of 50
(not above 60), `_generate_risk_factors` returns the empty list, whose
contributions sum to 0, outside [95, 105]. -/
theorem C8_counterexample :
    generate_risk_factors randLo [] 50 "pest_disease" = []
    ∧ ((generate_risk_factors randLo [] 50 "pest_disease").map
        RiskFactor.contribution).sum = 0
    ∧ ¬(95 ≤ (0 : ℤ)) := by
  have h : generate_risk_factors randLo [] 50 "pest_disease" = [] := by
    unfold generate_risk_factors gatherRiskFactors
    norm_num [dictGetNum, dictGetD, dictGet, fnum]
  exact ⟨h, by rw [h]; rfl, by norm_num⟩

theorem gatherRiskFactors_humid :
    gatherRiskFactors randLo [("humidity", FVal.num 90), ("temperature", FVal.num 25)] 50 =
      [⟨"High Humidity & Warmth", 25, "Ideal conditions for fungal pathogens"⟩] := by
  unfold gatherRiskFactors
  have h1 : dictGetNum [("humidity", FVal.num 90), ("temperature", FVal.num 25)]
      "humidity" 50 = 90 := by
    simp [dictGetNum, dictGetD, dictGet, fnum]
  have h2 : dictGetNum [("humidity", FVal.num 90), ("temperature", FVal.num 25)]
      "temperature" 25 = 25 := by
    simp [dictGetNum, dictGetD, dictGet, fnum]
  have h3 : dictGetNum [("humidity", FVal.num 90), ("temperature", FVal.num 25)]
      "soil_moisture" (1 / 2) = 1 / 2 := by
    simp [dictGetNum, dictGetD, dictGet, fnum]
  have h4 : dictGetNum [("humidity", FVal.num 90), ("temperature", FVal.num 25)]
      "pest_pressure_history" 0 = 0 := by
    simp [dictGetNum, dictGetD, dictGet, fnum]
  have h5 : dictGetNum [("humidity", FVal.num 90), ("temperature", FVal.num 25)]
      "ndvi" (3 / 5) = 3 / 5 := by
    simp [dictGetNum, dictGetD, dictGet, fnum]
  rw [h1, h2, h3, h4, h5]
  norm_num [randLo]

/-- Witness for C8 (amended): one triggered rule (high humidity and warmth)
normalizes to a single contribution of 100, within [95, 105]. -/
theorem C8_witness :
    95 ≤ ((generate_risk_factors randLo
        [("humidity", FVal.num 90), ("temperature", FVal.num 25)] 50 "pest_disease").map
        RiskFactor.contribution).sum
    ∧ ((generate_risk_factors randLo
        [("humidity", FVal.num 90), ("temperature", FVal.num 25)] 50 "pest_disease").map
        RiskFactor.contribution).sum ≤ 105 := by
  apply C8_contribution_sum_bounds
  · intro n a b hab
    exact ⟨le_refl a, hab⟩
  · have hgen : generate_risk_factors randLo
        [("humidity", FVal.num 90), ("temperature", FVal.num 25)] 50 "pest_disease" =
        [⟨"High Humidity & Warmth", 100, "Ideal conditions for fungal pathogens"⟩] := by
      simp only [generate_risk_factors, gatherRiskFactors_humid]
      have hpy : pyInt (100 : ℚ) = 100 := by
        rw [show (100 : ℚ) = ((100 : ℤ) : ℚ) by norm_num,
          pyInt_eq_floor _ (by norm_num), Int.floor_intCast]
      norm_num [hpy]
    rw [hgen]
    simp

/-! ## C6: deterministic context generation -/

theorem round2_eq (q : ℚ) (m : ℤ) (h : q * 100 = (m : ℚ)) :
    round2 q = (m : ℚ) / 100 := by
  rw [round2, roundTo,
    show (q * 10 ^ 2 : ℚ) = (m : ℚ) from by rw [← h]; norm_num,
    roundHalfEven_intCast]
  norm_num

/-- C6 (amended): two calls of `get_context_data` with the same longitude,
risk score, calendar year and month, and latitudes with the same 4-decimal
formatting return bit-identical dictionaries, provided both latitudes fall on
the same side of the `abs(lat) < 20` tropics test — the one place the raw
(unrounded) latitude is consulted. -/
theorem C6_context_determinism (sha : String → ℕ) (normal : ℕ → ℕ → ℚ → ℚ)
    (lat1 lat2 lon risk : ℚ) (year month : ℕ)
    (hfmt : format4 lat1 = format4 lat2)
    (htrop : |lat1| < 20 ↔ |lat2| < 20) :
    get_context_data sha normal lat1 lon risk year month =
      get_context_data sha normal lat2 lon risk year month := by
  have hseed : deterministic_seed sha lat1 lon year month =
      deterministic_seed sha lat2 lon year month := by
    unfold deterministic_seed contextKey
    rw [hfmt]
  have hbase : (if |lat1| < 20 then (3 : ℚ) / 10 + 1 / 5 else 3 / 10) =
      (if |lat2| < 20 then (3 : ℚ) / 10 + 1 / 5 else 3 / 10) := by
    by_cases h : |lat1| < 20
    · rw [if_pos h, if_pos (htrop.mp h)]
    · rw [if_neg h, if_neg (fun hh => h (htrop.mpr hh))]
  simp only [get_context_data, hseed, hbase]

theorem format4_lat1C6 : format4 lat1C6 = "20.0000" := by
  unfold format4 lat1C6
  rw [show |(1999999 / 100000 : ℚ)| = 1999999 / 100000 from abs_of_pos (by norm_num),
    show ((1999999 / 100000 : ℚ) * 10 ^ 4) = 1999999 / 10 from by norm_num,
    roundHalfEven_eq_of_half_lt (1999999 / 10) 199999 (by norm_num) (by norm_num),
    if_neg (by norm_num : ¬(1999999 / 100000 : ℚ) < 0)]
  rfl

theorem format4_lat2C6 : format4 lat2C6 = "20.0000" := by
  unfold format4 lat2C6
  rw [show |(2000001 / 100000 : ℚ)| = 2000001 / 100000 from abs_of_pos (by norm_num),
    show ((2000001 / 100000 : ℚ) * 10 ^ 4) = 2000001 / 10 from by norm_num,
    roundHalfEven_eq_of_lt_half (2000001 / 10) 200000 (by norm_num) (by norm_num),
    if_neg (by norm_num : ¬(2000001 / 100000 : ℚ) < 0)]
  rfl

theorem ctx_lat1C6 :
    get_context_data sha0 norm0 lat1C6 36 50 2026 10 =
      ⟨1 / 2, 1 / 2, 1 / 2, 2 / 5, 7 / 10⟩ := by
  have habs : |lat1C6| < 20 := by
    unfold lat1C6
    rw [abs_of_pos (by norm_num)]
    norm_num
  simp only [get_context_data, norm0, if_pos habs]
  rw [show qclip (3 / 10 + 1 / 5 + 0) (1 / 10) (9 / 10) = (1 / 2 : ℚ) from by
      norm_num [qclip, min_def, max_def],
    show qclip (1 / 2 + 0) (1 / 5) (9 / 10) = (1 / 2 : ℚ) from by
      norm_num [qclip, min_def, max_def],
    show qclip (1 - (50 : ℚ) / 100 + 0) (1 / 10) (19 / 20) = (1 / 2 : ℚ) from by
      norm_num [qclip, min_def, max_def],
    show qclip ((50 : ℚ) / 100 * (4 / 5) + 0) 0 1 = (2 / 5 : ℚ) from by
      norm_num [qclip, min_def, max_def],
    show qclip (1 - (1 / 2 : ℚ) * (3 / 5) + 0) (1 / 10) (19 / 20) = (7 / 10 : ℚ) from by
      norm_num [qclip, min_def, max_def]]
  rw [round2_eq (1 / 2) 50 (by norm_num), round2_eq (2 / 5) 40 (by norm_num),
    round2_eq (7 / 10) 70 (by norm_num)]
  norm_num

theorem ctx_lat2C6 :
    get_context_data sha0 norm0 lat2C6 36 50 2026 10 =
      ⟨3 / 10, 1 / 2, 1 / 2, 2 / 5, 41 / 50⟩ := by
  have habs : ¬(|lat2C6| < 20) := by
    unfold lat2C6
    rw [abs_of_pos (by norm_num)]
    norm_num
  simp only [get_context_data, norm0, if_neg habs]
  rw [show qclip (3 / 10 + 0) (1 / 10) (9 / 10) = (3 / 10 : ℚ) from by
      norm_num [qclip, min_def, max_def],
    show qclip (1 / 2 + 0) (1 / 5) (9 / 10) = (1 / 2 : ℚ) from by
      norm_num [qclip, min_def, max_def],
    show qclip (1 - (50 : ℚ) / 100 + 0) (1 / 10) (19 / 20) = (1 / 2 : ℚ) from by
      norm_num [qclip, min_def, max_def],
    show qclip ((50 : ℚ) / 100 * (4 / 5) + 0) 0 1 = (2 / 5 : ℚ) from by
      norm_num [qclip, min_def, max_def],
    show qclip (1 - (3 / 10 : ℚ) * (3 / 5) + 0) (1 / 10) (19 / 20) = (41 / 50 : ℚ) from by
      norm_num [qclip, min_def, max_def]]
  rw [round2_eq (3 / 10) 30 (by norm_num), round2_eq (1 / 2) 50 (by norm_num),
    round2_eq (2 / 5) 40 (by norm_num), round2_eq (41 / 50) 82 (by norm_num)]
  norm_num

/-- Counterexample to C6 as stated: 19.99999 and 20.00001 have the same
4-decimal rounding "20.0000" (an intentional seed collision), yet the
returned dictionaries differ, because the tropics adjustment
`abs(lat) < 20` reads the raw latitude. -/
theorem C6_counterexample :
    format4 lat1C6 = format4 lat2C6
    ∧ get_context_data sha0 norm0 lat1C6 36 50 2026 10 ≠
        get_context_data sha0 norm0 lat2C6 36 50 2026 10 := by
  refine ⟨by rw [format4_lat1C6, format4_lat2C6], ?_⟩
  rw [ctx_lat1C6, ctx_lat2C6]
  intro h
  have := congrArg ContextData.weather_volatility h
  norm_num at this

theorem format4_latW1 : format4 latW1 = "0.1234" := by
  unfold format4 latW1
  rw [show |(12341 / 100000 : ℚ)| = 12341 / 100000 from abs_of_pos (by norm_num),
    show ((12341 / 100000 : ℚ) * 10 ^ 4) = 12341 / 10 from by norm_num,
    roundHalfEven_eq_of_lt_half (12341 / 10) 1234 (by norm_num) (by norm_num),
    if_neg (by norm_num : ¬(12341 / 100000 : ℚ) < 0)]
  rfl

theorem format4_latW2 : format4 latW2 = "0.1234" := by
  unfold format4 latW2
  rw [show |(123412 / 1000000 : ℚ)| = 123412 / 1000000 from abs_of_pos (by norm_num),
    show ((123412 / 1000000 : ℚ) * 10 ^ 4) = 123412 / 100 from by norm_num,
    roundHalfEven_eq_of_lt_half (123412 / 100) 1234 (by norm_num) (by norm_num),
    if_neg (by norm_num : ¬(123412 / 1000000 : ℚ) < 0)]
  rfl

/-- Witness for C6 (amended): 0.12341 and 0.123412 differ only beyond the 4th
decimal place, both format to "0.1234" and both lie in the tropics band, so
the two context dictionaries are identical. -/
theorem C6_witness :
    get_context_data sha0 norm0 latW1 36 50 2026 10 =
      get_context_data sha0 norm0 latW2 36 50 2026 10 := by
  apply C6_context_determinism
  · rw [format4_latW1, format4_latW2]
  · have h1 : |latW1| < 20 := by
      unfold latW1
      rw [abs_of_pos (by norm_num)]
      norm_num
    have h2 : |latW2| < 20 := by
      unfold latW2
      rw [abs_of_pos (by norm_num)]
      norm_num
    exact iff_of_true h1 h2

/-! ## C2: feature completeness of the pipeline -/

theorem formatCell_keys (c : GridCell) :
    (formatCell c).features.map Prod.fst = formatFeatureKeys := rfl

theorem dictGet_formatCell_humidity (c : GridCell) :
    dictGet (formatCell c).features "humidity" = none := rfl

/-- C2 (amended): for any cell list and any behavior of the external
capabilities — including every capability erroring or reporting no data — each
vector produced by `extract_features_for_cells` followed by
`format_for_model_input` carries exactly the fixed 26-name schema
`formatFeatureKeys` (the set the repository's tests call the required model
features), every key present, absent raw inputs replaced by the layer
defaults.  The *trained agricultural model's* declared feature list
(`modelTrainerFeatureNames`, e.g. `humidity`) is, however, not contained in
the pipeline's output — see the counterexample. -/
theorem C2_pipeline_schema (imageCount : ℕ)
    (ndviSampler : GridCell → Except Unit (Option ℚ))
    (hav : ℚ → ℚ → ℚ → ℚ → ℚ) (estWater estRoad estSettlement : ℕ → ℚ)
    (moonPhase : ℚ) (middleMonth weekday : ℕ)
    (elevSampler slopeSampler : GridCell → Except Unit (Option ℚ))
    (nowMonth : ℕ) (polygon : List GeoPoint)
    (park_boundary : Option (List GeoPoint)) (cells : List GridCell) :
    ∀ m ∈ format_for_model_input
        (fe_extract_features_for_cells imageCount ndviSampler hav estWater
          estRoad estSettlement moonPhase middleMonth weekday elevSampler
          slopeSampler nowMonth polygon park_boundary cells),
      m.features.map Prod.fst = formatFeatureKeys := by
  intro m hm
  rw [format_for_model_input, List.mem_map] at hm
  obtain ⟨c, -, hc⟩ := hm
  rw [← hc]
  exact formatCell_keys c

theorem c2pipe_singleton : ∃ c : GridCell, c2pipe = [formatCell c] := by
  refine ⟨?_, ?_⟩
  · exact (fe_extract_features_for_cells 0 errSampler hav0 est1000 est1000 est1000
      50 6 2 errSampler errSampler 6 unitSquare none [baseCell]).head!
  · rfl

/-- Counterexample to C2 as stated: the trained model's declared
required-feature list contains `humidity`, but the feature vector the full
pipeline produces has no `humidity` key (its schema is the wildlife-era
26-name list); `predict_batch` later papers over this by substituting the 60.0
default. -/
theorem C2_counterexample :
    "humidity" ∈ modelTrainerFeatureNames
    ∧ dictGet c2pipe.head!.features "humidity" = none
    ∧ "humidity" ∉ formatFeatureKeys := by
  refine ⟨by decide, ?_, by decide⟩
  obtain ⟨c, hc⟩ := c2pipe_singleton
  rw [hc]
  exact dictGet_formatCell_humidity c

/-- Witness for C2 (amended): the concrete all-capabilities-fail pipeline run
produces exactly the 26-key schema. -/
theorem C2_witness : c2pipe.head!.features.map Prod.fst = formatFeatureKeys := by
  apply C2_pipeline_schema 0 errSampler hav0 est1000 est1000 est1000
    50 6 2 errSampler errSampler 6 unitSquare none [baseCell]
  show c2pipe.head! ∈ c2pipe
  apply List.head!_mem_self
  obtain ⟨c, hc⟩ := c2pipe_singleton
  rw [hc]
  simp

/-! ## C5: the 5 km grid scenario on the 0.1-degree square -/

theorem tglC5_e1_false_a (a b : ℚ) (ha : 0 < a) :
    edgeToggle a b (⟨0, 35⟩, ⟨0, 351 / 10⟩) = false := by
  simp only [edgeToggle]
  by_cases hG : min (35 : ℚ) (351 / 10) < b ∧ b ≤ max (35 : ℚ) (351 / 10)
  · rw [if_pos hG, if_neg ?hA]
    case hA =>
      rw [max_self]
      exact not_le.mpr ha
  · rw [if_neg hG]

theorem tglC5_e1_false_b (a b : ℚ) (hb : 351 / 10 < b) :
    edgeToggle a b (⟨0, 35⟩, ⟨0, 351 / 10⟩) = false := by
  simp only [edgeToggle]
  rw [if_neg]
  rintro ⟨-, h2⟩
  rw [show max (35 : ℚ) (351 / 10) = 351 / 10 from by norm_num [max_def]] at h2
  linarith

theorem tglC5_e2_false (a b : ℚ) :
    edgeToggle a b (⟨0, 351 / 10⟩, ⟨1 / 10, 351 / 10⟩) = false := by
  simp only [edgeToggle]
  rw [if_neg]
  rintro ⟨h1, h2⟩
  rw [min_self] at h1
  rw [max_self] at h2
  linarith

theorem tglC5_e3_true (a b : ℚ) (ha : a ≤ 1 / 10) (hb1 : 35 < b) (hb2 : b ≤ 351 / 10) :
    edgeToggle a b (⟨1 / 10, 351 / 10⟩, ⟨1 / 10, 35⟩) = true := by
  simp only [edgeToggle]
  rw [if_pos ⟨by rw [show min (351 / 10 : ℚ) 35 = 35 from by norm_num [min_def]]; exact hb1,
      by rw [show max (351 / 10 : ℚ) 35 = 351 / 10 from by norm_num [max_def]]; exact hb2⟩,
    if_pos (by rw [max_self]; exact ha)]
  simp

theorem tglC5_e3_false_a (a b : ℚ) (ha : 1 / 10 < a) :
    edgeToggle a b (⟨1 / 10, 351 / 10⟩, ⟨1 / 10, 35⟩) = false := by
  simp only [edgeToggle]
  by_cases hG : min (351 / 10 : ℚ) 35 < b ∧ b ≤ max (351 / 10 : ℚ) 35
  · rw [if_pos hG, if_neg ?hA]
    case hA =>
      rw [max_self]
      exact not_le.mpr ha
  · rw [if_neg hG]

theorem tglC5_e3_false_b (a b : ℚ) (hb : 351 / 10 < b) :
    edgeToggle a b (⟨1 / 10, 351 / 10⟩, ⟨1 / 10, 35⟩) = false := by
  simp only [edgeToggle]
  rw [if_neg]
  rintro ⟨-, h2⟩
  rw [show max (351 / 10 : ℚ) 35 = 351 / 10 from by norm_num [max_def]] at h2
  linarith

theorem tglC5_e4_false (a b : ℚ) :
    edgeToggle a b (⟨1 / 10, 35⟩, ⟨0, 35⟩) = false := by
  simp only [edgeToggle]
  rw [if_neg]
  rintro ⟨h1, h2⟩
  rw [min_self] at h1
  rw [max_self] at h2
  linarith

theorem pipC5_edges : polyEdges testPolyC5 =
    [(⟨0, 35⟩, ⟨0, 351 / 10⟩), (⟨0, 351 / 10⟩, ⟨1 / 10, 351 / 10⟩),
     (⟨1 / 10, 351 / 10⟩, ⟨1 / 10, 35⟩), (⟨1 / 10, 35⟩, ⟨0, 35⟩)] := rfl

theorem pipC5_in (a b : ℚ) (h1 : 0 < a) (h2 : a ≤ 1 / 10) (h3 : 35 < b)
    (h4 : b ≤ 351 / 10) : point_in_polygon a b testPolyC5 = true := by
  rw [point_in_polygon, pipC5_edges]
  simp only [List.foldl_cons, List.foldl_nil]
  rw [tglC5_e1_false_a a b h1, tglC5_e2_false, tglC5_e3_true a b h2 h3 h4, tglC5_e4_false]
  rfl

theorem pipC5_latHigh (a b : ℚ) (ha : 1 / 10 < a) :
    point_in_polygon a b testPolyC5 = false := by
  rw [point_in_polygon, pipC5_edges]
  simp only [List.foldl_cons, List.foldl_nil]
  rw [tglC5_e1_false_a a b (by linarith), tglC5_e2_false, tglC5_e3_false_a a b ha,
    tglC5_e4_false]
  rfl

theorem pipC5_lngHigh (a b : ℚ) (hb : 351 / 10 < b) :
    point_in_polygon a b testPolyC5 = false := by
  rw [point_in_polygon, pipC5_edges]
  simp only [List.foldl_cons, List.foldl_nil]
  rw [tglC5_e1_false_b a b hb, tglC5_e2_false, tglC5_e3_false_b a b hb, tglC5_e4_false]
  rfl

theorem gridAxisLatC5 : gridAxis 0 (1 / 10) (5 / 111) = [0, 5 / 111, 10 / 111] := by
  rw [gridAxis]
  norm_num
  rw [gridAxis]
  norm_num
  rw [gridAxis]
  norm_num
  rw [gridAxis]
  norm_num

theorem gridAxisLngC5 (s : ℚ) (hs1 : 45 / 1000 ≤ s) (hs2 : s ≤ 451 / 10000) :
    gridAxis 35 (351 / 10) s = [35, 35 + s, 35 + s + s] := by
  rw [gridAxis, dif_pos ⟨by norm_num, by linarith⟩,
    gridAxis, dif_pos ⟨by linarith, by linarith⟩,
    gridAxis, dif_pos ⟨by linarith, by linarith⟩,
    gridAxis, dif_neg (by rintro ⟨h, -⟩; linarith)]

theorem gridC5_eval (cosf : ℚ → ℚ) (hc1 : 999 / 1000 ≤ cosf (1 / 20))
    (hc2 : cosf (1 / 20) ≤ 1) :
    (create_grid_cells cosf testPolyC5 5).length = 4
    ∧ (create_grid_cells cosf testPolyC5 5).map (fun cl => cl.center.lat) =
        [5 / 222, 5 / 222, 15 / 222, 15 / 222] := by
  have h111 : 0 < 111 * cosf (1 / 20) := by linarith
  simp only [create_grid_cells]
  rw [show testPolyC5.map GeoPoint.lat = [0, 0, 1 / 10, 1 / 10] from rfl,
    show testPolyC5.map GeoPoint.lng = [35, 351 / 10, 351 / 10, 35] from rfl,
    show qListMin [0, 0, 1 / 10, 1 / 10] = (0 : ℚ) from by
      norm_num [qListMin, List.foldl, min_def],
    show qListMax [0, 0, 1 / 10, 1 / 10] = (1 / 10 : ℚ) from by
      norm_num [qListMax, List.foldl, max_def],
    show qListMin [35, 351 / 10, 351 / 10, 35] = (35 : ℚ) from by
      norm_num [qListMin, List.foldl, min_def],
    show qListMax [35, 351 / 10, 351 / 10, 35] = (351 / 10 : ℚ) from by
      norm_num [qListMax, List.foldl, max_def],
    show ((0 : ℚ) + 1 / 10) / 2 = 1 / 20 from by norm_num]
  set s : ℚ := 5 / (111 * cosf (1 / 20)) with hsdef
  have hs1 : 45 / 1000 ≤ s := by
    rw [hsdef, le_div_iff h111]
    nlinarith
  have hs2 : s ≤ 451 / 10000 := by
    rw [hsdef, div_le_iff h111]
    nlinarith
  rw [gridAxisLatC5, gridAxisLngC5 s hs1 hs2]
  simp only [List.flatMap_cons, List.flatMap_nil, List.map_cons, List.map_nil,
    List.append_nil, List.cons_append, List.nil_append]
  have hp00 : point_in_polygon (0 + 5 / 111 / 2 : ℚ) (35 + s / 2) testPolyC5 = true :=
    pipC5_in _ _ (by norm_num) (by norm_num) (by linarith) (by linarith)
  have hp01 : point_in_polygon (0 + 5 / 111 / 2 : ℚ) (35 + s + s / 2) testPolyC5 = true :=
    pipC5_in _ _ (by norm_num) (by norm_num) (by linarith) (by linarith)
  have hp02 : point_in_polygon (0 + 5 / 111 / 2 : ℚ) (35 + s + s + s / 2) testPolyC5 = false :=
    pipC5_lngHigh _ _ (by linarith)
  have hp10 : point_in_polygon (5 / 111 + 5 / 111 / 2 : ℚ) (35 + s / 2) testPolyC5 = true :=
    pipC5_in _ _ (by norm_num) (by norm_num) (by linarith) (by linarith)
  have hp11 : point_in_polygon (5 / 111 + 5 / 111 / 2 : ℚ) (35 + s + s / 2) testPolyC5 = true :=
    pipC5_in _ _ (by norm_num) (by norm_num) (by linarith) (by linarith)
  have hp12 : point_in_polygon (5 / 111 + 5 / 111 / 2 : ℚ) (35 + s + s + s / 2) testPolyC5 = false :=
    pipC5_lngHigh _ _ (by linarith)
  have hp20 : point_in_polygon (10 / 111 + 5 / 111 / 2 : ℚ) (35 + s / 2) testPolyC5 = false :=
    pipC5_latHigh _ _ (by norm_num)
  have hp21 : point_in_polygon (10 / 111 + 5 / 111 / 2 : ℚ) (35 + s + s / 2) testPolyC5 = false :=
    pipC5_latHigh _ _ (by norm_num)
  have hp22 : point_in_polygon (10 / 111 + 5 / 111 / 2 : ℚ) (35 + s + s + s / 2) testPolyC5 = false :=
    pipC5_latHigh _ _ (by norm_num)
  simp only [List.filter_cons, List.filter_nil, hp00, hp01, hp02, hp10, hp11, hp12,
    hp20, hp21, hp22, if_true, if_false]
  simp [List.enum, List.enumFrom]
  norm_num

/-- C5 (amended): for the scenario polygon `[(0,35.0), (0,35.1), (0.1,35.1),
(0.1,35.0)]` and 5 km cells, the grid builder returns exactly 4 cells (2 rows
by 2 columns — the 0.1-degree box is about 11.1 km across, larger than the 5 km
cell), with cell-center latitudes 5/222 ≈ 0.0225 and 15/222 ≈ 0.0676, for any
cosine capability consistent with cos(radians(0.05)) ∈ [0.999, 1]; there is no
single cell with center near (0.05, 35.05). -/
theorem C5_grid_scenario (cosf : ℚ → ℚ) (hc1 : 999 / 1000 ≤ cosf (1 / 20))
    (hc2 : cosf (1 / 20) ≤ 1) :
    (create_grid_cells cosf testPolyC5 5).length = 4
    ∧ (create_grid_cells cosf testPolyC5 5).map (fun cl => cl.center.lat) =
        [5 / 222, 5 / 222, 15 / 222, 15 / 222] :=
  gridC5_eval cosf hc1 hc2

/-- Counterexample to C5 as stated: with the longitude factor fixed to a
13-digit enclosure of cos(radians(0.05)), the grid has 4 cells, not exactly 1. -/
theorem C5_counterexample :
    (create_grid_cells (fun _ => cosC5) testPolyC5 5).length ≠ 1 := by
  have h := gridC5_eval (fun _ => cosC5) (by norm_num [cosC5]) (by norm_num [cosC5])
  rw [h.1]
  norm_num

/-- Witness for C5 (amended), at the concrete cosine enclosure. -/
theorem C5_witness :
    (create_grid_cells (fun _ => cosC5) testPolyC5 5).length = 4
    ∧ (create_grid_cells (fun _ => cosC5) testPolyC5 5).map (fun cl => cl.center.lat) =
        [5 / 222, 5 / 222, 15 / 222, 15 / 222] :=
  C5_grid_scenario (fun _ => cosC5) (by norm_num [cosC5]) (by norm_num [cosC5])

end Sentry
